import Mathlib

/-!
Verification development for the trade-signal-bot engine: a shallow
embedding of the strategy evaluators (src/utils/strategies.py), the trend
combiner (src/utils/trend_predictor.py), the two signal-aggregation
routines (src/bot.py, src/utils/backtester.py) and the backtest simulator
(src/utils/backtester.py), with theorems checking the documented behaviour.

Prices, volumes and indicator values are modelled as rationals.  A pandas
frame is modelled as a record of columns: the OHLCV columns are always
present (yfinance always delivers them); the derived indicator columns are
optional, since reading an absent column raises a KeyError in Python.
Python exceptions are modelled with the Except monad (Err is the kind of
exception); the value NaN produced by an incomplete rolling window is
modelled by Option, and a comparison against it is false, as in pandas.
-/

/-- Kind of a Python exception surfaced by the embedded code. -/
abbrev Err := String

/-- The side of a trading signal. -/
inductive SigType where
  | BUY
  | SELL
deriving DecidableEq, Repr

/-- The Signal dataclass of strategies.py. -/
structure Signal where
  type : SigType
  price : ℚ
  reason : String
  strength : ℚ
deriving DecidableEq, Repr

/-- A market-data frame: OHLCV columns plus optional indicator columns.
The unused Open column and the timestamp index are not modelled; bar i is
addressed by its position i. -/
structure Frame where
  close : List ℚ
  high : List ℚ
  low : List ℚ
  volume : List ℚ
  rsi : Option (List ℚ)
  macd : Option (List ℚ)
  macdSignal : Option (List ℚ)
  bbHigh : Option (List ℚ)
  bbLow : Option (List ℚ)
deriving DecidableEq

/-- len(df) in pandas: the number of rows.  All columns of a pandas frame
share this length; the Close column carries it in the embedding. -/
def Frame.len (df : Frame) : ℕ := df.close.length

/-- Column access df[c] for an optional indicator column: raises KeyError
when the column is absent. -/
def colE (o : Option (List ℚ)) : Except Err (List ℚ) :=
  match o with
  | some l => .ok l
  | none => .error "KeyError"

/-- series.iloc[-k] as a partial lookup (k is at least 1). -/
def ilocNeg (l : List ℚ) (k : ℕ) : Option ℚ := l.reverse[k - 1]?

/-- series.iloc[-k], raising IndexError when the series is too short. -/
def exGet (l : List ℚ) (k : ℕ) : Except Err ℚ :=
  match ilocNeg l k with
  | some x => .ok x
  | none => .error "IndexError"

/-- Python list slice l[a:b] (clamping, as in Python and numpy). -/
def sliceL (l : List ℚ) (a b : ℕ) : List ℚ := (l.take b).drop a

/-- Arithmetic mean of a list (sum(l)/len(l)). -/
def listMean (l : List ℚ) : ℚ := l.sum / (l.length : ℚ)

/-- Minimum of a nonempty list (the default 0 is never exposed: every use
guards the length first). -/
def listMin (l : List ℚ) : ℚ :=
  match l with
  | [] => 0
  | x :: xs => xs.foldl min x

/-- Maximum of a nonempty list, as listMin. -/
def listMax (l : List ℚ) : ℚ :=
  match l with
  | [] => 0
  | x :: xs => xs.foldl max x

/-- Python max(l, default=None). -/
def listMaxOpt (l : List ℚ) : Option ℚ :=
  match l with
  | [] => none
  | x :: xs => some (xs.foldl max x)

/-- Python min(l, default=None). -/
def listMinOpt (l : List ℚ) : Option ℚ :=
  match l with
  | [] => none
  | x :: xs => some (xs.foldl min x)

/-- series.rolling(window=w).mean().iloc[-k]: none models both an
IndexError position and a NaN from an incomplete window. -/
def rollMean (w k : ℕ) (l : List ℚ) : Option ℚ :=
  if 1 ≤ k ∧ k ≤ l.length ∧ w ≤ l.length + 1 - k then
    some (listMean (sliceL l (l.length + 1 - k - w) (l.length + 1 - k)))
  else none

/-- series.rolling(window=w).min().iloc[-k], as rollMean. -/
def rollMin (w k : ℕ) (l : List ℚ) : Option ℚ :=
  if 1 ≤ k ∧ k ≤ l.length ∧ w ≤ l.length + 1 - k then
    some (listMin (sliceL l (l.length + 1 - k - w) (l.length + 1 - k)))
  else none

/-- series.rolling(window=w).max().iloc[-k], as rollMean. -/
def rollMax (w k : ℕ) (l : List ℚ) : Option ℚ :=
  if 1 ≤ k ∧ k ≤ l.length ∧ w ≤ l.length + 1 - k then
    some (listMax (sliceL l (l.length + 1 - k - w) (l.length + 1 - k)))
  else none

/-- a > b where either side may be NaN (none): any comparison against NaN
is false in pandas. -/
def optGT (a b : Option ℚ) : Bool :=
  match a, b with
  | some x, some y => decide (y < x)
  | _, _ => false

/-- a < b with NaN-is-false semantics, as optGT. -/
def optLT (a b : Option ℚ) : Bool :=
  match a, b with
  | some x, some y => decide (x < y)
  | _, _ => false

/-- Python int() applied to a real quantity: truncation toward zero. -/
def pyInt (q : ℚ) : ℤ := if 0 ≤ q then ⌊q⌋ else ⌈q⌉

/-- Rendering of a number with two decimals, modelling the Python format
specifier {:.2f} used inside signal reasons. -/
def fmt2 (q : ℚ) : String :=
  let n : ℤ := ⌊q * 100 + 1/2⌋
  let a := n.natAbs
  (if n < 0 then "-" else "") ++ toString (a / 100) ++ "." ++
    (if a % 100 < 10 then "0" else "") ++ toString (a % 100)

/-- TradingStrategies.rsi_strategy: BUY below rsi_buy with strength
1 - RSI/rsi_buy, SELL above rsi_sell with strength
(RSI - rsi_sell)/(100 - rsi_sell), else no signal. -/
def rsi_strategy (df : Frame) (rsiBuy rsiSell : ℚ) : Except Err (Option Signal) :=
  match colE df.rsi with
  | .error e => .error e
  | .ok rl =>
    match exGet rl 1 with
    | .error e => .error e
    | .ok currentRsi =>
      match exGet df.close 1 with
      | .error e => .error e
      | .ok price =>
        if currentRsi < rsiBuy then
          .ok (some ⟨.BUY, price, "RSI oversold: " ++ fmt2 currentRsi,
            1 - currentRsi / rsiBuy⟩)
        else if rsiSell < currentRsi then
          .ok (some ⟨.SELL, price, "RSI overbought: " ++ fmt2 currentRsi,
            (currentRsi - rsiSell) / (100 - rsiSell)⟩)
        else .ok none

/-- TradingStrategies.macd_cross_strategy: BUY on an upward cross of the
MACD line over its signal line, SELL on a downward cross, strength the
absolute gap clamped at 1. -/
def macd_cross_strategy (df : Frame) : Except Err (Option Signal) :=
  if df.len < 2 then .ok none
  else
    match colE df.macd with
    | .error e => .error e
    | .ok ml =>
      match colE df.macdSignal with
      | .error e => .error e
      | .ok sl =>
        match exGet ml 1 with
        | .error e => .error e
        | .ok currentMacd =>
          match exGet sl 1 with
          | .error e => .error e
          | .ok currentSignal =>
            match exGet ml 2 with
            | .error e => .error e
            | .ok prevMacd =>
              match exGet sl 2 with
              | .error e => .error e
              | .ok prevSignal =>
                match exGet df.close 1 with
                | .error e => .error e
                | .ok price =>
                  if prevMacd ≤ prevSignal ∧ currentSignal < currentMacd then
                    .ok (some ⟨.BUY, price, "MACD bullish crossover",
                      min 1 |currentMacd - currentSignal|⟩)
                  else if prevSignal ≤ prevMacd ∧ currentMacd < currentSignal then
                    .ok (some ⟨.SELL, price, "MACD bearish crossover",
                      min 1 |currentMacd - currentSignal|⟩)
                  else .ok none

/-- TradingStrategies.bollinger_bands_strategy: BUY when the close is
under lower band times 1.005, SELL when over upper band times 0.995,
strength the relative excursion beyond the raw band. -/
def bollinger_bands_strategy (df : Frame) : Except Err (Option Signal) :=
  match exGet df.close 1 with
  | .error e => .error e
  | .ok price =>
    match colE df.bbHigh with
    | .error e => .error e
    | .ok ubl =>
      match exGet ubl 1 with
      | .error e => .error e
      | .ok upperBand =>
        match colE df.bbLow with
        | .error e => .error e
        | .ok lbl =>
          match exGet lbl 1 with
          | .error e => .error e
          | .ok lowerBand =>
            if price < lowerBand * (1 + 1/200) then
              .ok (some ⟨.BUY, price, "Price near lower Bollinger Band",
                (lowerBand - price) / lowerBand⟩)
            else if upperBand * (1 - 1/200) < price then
              .ok (some ⟨.SELL, price, "Price near upper Bollinger Band",
                (price - upperBand) / upperBand⟩)
            else .ok none

/-- TradingStrategies.volume_price_strategy: on a volume spike over 1.5
times the 20-bar average, BUY if the close rose against the prior bar and
SELL if it fell, strength min(1, volume/avg - 1). -/
def volume_price_strategy (df : Frame) : Except Err (Option Signal) :=
  if df.len < 20 then .ok none
  else
    match exGet df.volume 1 with
    | .error e => .error e
    | .ok currentVolume =>
      match rollMean 20 1 df.volume with
      | none => .ok none
      | some avgVolume =>
        match exGet df.close 1 with
        | .error e => .error e
        | .ok price =>
          if (3/2) * avgVolume < currentVolume then
            match exGet df.close 2 with
            | .error e => .error e
            | .ok prevClose =>
              let priceChange := (price - prevClose) / prevClose
              if 0 < priceChange then
                .ok (some ⟨.BUY, price, "High volume price increase",
                  min 1 (currentVolume / avgVolume - 1)⟩)
              else if priceChange < 0 then
                .ok (some ⟨.SELL, price, "High volume price decrease",
                  min 1 (currentVolume / avgVolume - 1)⟩)
              else .ok none
          else .ok none

/-- Support-pivot test of TradingStrategies.find_support_resistance at
index i: low i is at most every low in lows[i-w:i] and in lows[i+1:i+w]
(note: the slice after the bar holds w-1 bars), and the volume at i beats
the mean of volumes[i-w:i+w] (2w bars, the bar i itself included).  The
mean comparison is phrased multiplied through by the slice length, which
also gives numpy NaN-comparison semantics (false) for an empty slice. -/
def isSupportPivot (lows vols : List ℚ) (w i : ℕ) : Bool :=
  let li := lows.getD i 0
  (sliceL lows (i - w) i).all (fun x => li ≤ x) &&
  (sliceL lows (i + 1) (i + w)).all (fun x => li ≤ x) &&
  (let s := sliceL vols (i - w) (i + w)
   decide (s.sum < (s.length : ℚ) * vols.getD i 0))

/-- Resistance-pivot test, symmetric to isSupportPivot with highs. -/
def isResistancePivot (highs vols : List ℚ) (w i : ℕ) : Bool :=
  let hi := highs.getD i 0
  (sliceL highs (i - w) i).all (fun x => x ≤ hi) &&
  (sliceL highs (i + 1) (i + w)).all (fun x => x ≤ hi) &&
  (let s := sliceL vols (i - w) (i + w)
   decide (s.sum < (s.length : ℚ) * vols.getD i 0))

/-- range(w, n - w), the interior bar indices scanned for pivots. -/
def pivotIdxs (n w : ℕ) : List ℕ := List.range' w (n - 2 * w)

/-- The indices reported as support pivots. -/
def supIdxs (df : Frame) (w : ℕ) : List ℕ :=
  (pivotIdxs df.len w).filter (fun i => isSupportPivot df.low df.volume w i)

/-- The indices reported as resistance pivots. -/
def resIdxs (df : Frame) (w : ℕ) : List ℕ :=
  (pivotIdxs df.len w).filter (fun i => isResistancePivot df.high df.volume w i)

/-- The greedy grouping loop of cluster_levels: c0 is the first value of
the open cluster, acc its later members in order. -/
def clusterGo (t c0 : ℚ) (acc : List ℚ) : List ℚ → List ℚ
  | [] => [(c0 + acc.sum) / (1 + acc.length)]
  | lv :: rest =>
    if (lv - c0) / c0 ≤ t then clusterGo t c0 (acc ++ [lv]) rest
    else ((c0 + acc.sum) / (1 + acc.length)) :: clusterGo t lv [] rest

/-- cluster_levels of find_support_resistance: sort ascending, then group
greedily against the first value of the open cluster, emitting each
cluster mean. -/
def cluster_levels (levels : List ℚ) (t : ℚ) : List ℚ :=
  match List.insertionSort (· ≤ ·) levels with
  | [] => []
  | c :: rest => clusterGo t c [] rest

/-- TradingStrategies.find_support_resistance: pivot detection over the
interior indices followed by clustering of the pivot lows and highs. -/
def find_support_resistance (df : Frame) (w : ℕ := 20) (t : ℚ := 2/100) :
    List ℚ × List ℚ :=
  (cluster_levels ((supIdxs df w).map (fun i => df.low.getD i 0)) t,
   cluster_levels ((resIdxs df w).map (fun i => df.high.getD i 0)) t)

/-- The body of TradingStrategies.swing_trade_strategy inside its
try-block; an .error value is an exception reaching the except-handler. -/
def swingCore (df : Frame) : Except Err (Option Signal) :=
  if df.len < 20 then .ok none
  else
    match exGet df.close 1 with
    | .error e => .error e
    | .ok currentPrice =>
      match exGet df.volume 1 with
      | .error e => .error e
      | .ok currentVolume =>
        let avgVolume := rollMean 20 1 df.volume
        match colE df.rsi with
        | .error e => .error e
        | .ok rl =>
          match exGet rl 1 with
          | .error e => .error e
          | .ok rsi =>
            match exGet rl 2 with
            | .error e => .error e
            | .ok prevRsi =>
              let sr := find_support_resistance df 20 (2/100)
              if sr.1.isEmpty || sr.2.isEmpty then .ok none
              else
                match listMaxOpt (sr.1.filter (fun s => s < currentPrice)),
                      listMinOpt (sr.2.filter (fun r => currentPrice < r)) with
                | some nearestSupport, some nearestResistance =>
                  -- Python truthiness: a level equal to 0.0 is falsy and
                  -- rejected exactly as a missing level.
                  if nearestSupport = 0 ∨ nearestResistance = 0 then .ok none
                  else
                    let supportDistance :=
                      (currentPrice - nearestSupport) / nearestSupport
                    let resistanceDistance :=
                      (nearestResistance - currentPrice) / currentPrice
                    let volumeSurge :=
                      match avgVolume with
                      | some av => decide ((3/2) * av < currentVolume)
                      | none => false
                    let higherLows :=
                      optGT (rollMin 5 1 df.low) (rollMin 5 5 df.low)
                    let lowerHighs :=
                      optLT (rollMax 5 1 df.high) (rollMax 5 5 df.high)
                    if supportDistance < 2/100 ∧ higherLows = true ∧
                        rsi < 40 ∧ prevRsi < rsi then
                      .ok (some ⟨.BUY, currentPrice,
                        "Swing Trade BUY: Near support " ++ fmt2 nearestSupport,
                        min 1 ((3/10) + (if volumeSurge then 2/10 else 0) +
                          (if rsi < 30 then 3/10 else 1/10) +
                          (2/10) * (1 - supportDistance / (2/100)))⟩)
                    else if resistanceDistance < 2/100 ∧ lowerHighs = true ∧
                        60 < rsi ∧ rsi < prevRsi then
                      .ok (some ⟨.SELL, currentPrice,
                        "Swing Trade SELL: Near resistance " ++
                          fmt2 nearestResistance,
                        min 1 ((3/10) + (if volumeSurge then 2/10 else 0) +
                          (if 70 < rsi then 3/10 else 1/10) +
                          (2/10) * (1 - resistanceDistance / (2/100)))⟩)
                    else .ok none
                | _, _ => .ok none

/-- The except-handler of swing_trade_strategy: any exception of the
try-block becomes no signal. -/
def exCatch (x : Except Err (Option Signal)) : Option Signal :=
  match x with
  | .ok r => r
  | .error _ => none

/-- TradingStrategies.swing_trade_strategy: the try-block with any
exception caught and turned into no signal. -/
def swing_trade_strategy (df : Frame) : Option Signal :=
  exCatch (swingCore df)

/-- Trend direction of the TrendPredictor. -/
inductive Direction where
  | UP
  | DOWN
  | SIDEWAYS
deriving DecidableEq, Repr

/-- TrendPredictor._combine_signals: majority vote of the sub-estimator
directions, strength the average confidence scaled by the vote share, a
tie giving SIDEWAYS with the plain average confidence. -/
def TrendPredictor.combine_signals (signals : List Direction)
    (confidences : List ℚ) : Direction × ℚ × String :=
  if signals.isEmpty then (.SIDEWAYS, 0, "Insufficient data")
  else
    let upSignals := (signals.filter (fun d => d = .UP)).length
    let downSignals := (signals.filter (fun d => d = .DOWN)).length
    let avgConfidence := confidences.sum / (confidences.length : ℚ)
    if downSignals < upSignals then
      (.UP, avgConfidence * ((upSignals : ℚ) / (signals.length : ℚ)),
       "Bullish signals: " ++ toString upSignals ++ "/" ++
         toString signals.length ++ " indicators")
    else if upSignals < downSignals then
      (.DOWN, avgConfidence * ((downSignals : ℚ) / (signals.length : ℚ)),
       "Bearish signals: " ++ toString downSignals ++ "/" ++
         toString signals.length ++ " indicators")
    else (.SIDEWAYS, avgConfidence, "Mixed signals")

/-- Backtester.analyze_signals: RSI, MACD-cross, Bollinger and swing-trade
evaluators in order, every returned signal appended, with no
minimum-strength filter and no per-evaluator exception handling. -/
def Backtester.analyze_signals (df : Frame) : Except Err (List Signal) :=
  match rsi_strategy df 35 65 with
  | .error e => .error e
  | .ok s1 =>
    match macd_cross_strategy df with
    | .error e => .error e
    | .ok s2 =>
      match bollinger_bands_strategy df with
      | .error e => .error e
      | .ok s3 =>
        .ok (s1.toList ++ s2.toList ++ s3.toList ++
          (swing_trade_strategy df).toList)

/-- Keep a returned signal only when its strength reaches the threshold
(the bot condition: if signal and signal.strength >= 0.3). -/
def keepStrong (threshold : ℚ) (o : Option Signal) : List Signal :=
  match o with
  | some s => if threshold ≤ s.strength then [s] else []
  | none => []

/-- TradingBot.analyze_signals: RSI, MACD-cross, Bollinger and
volume-price evaluators in order, keeping only signals of strength at
least min_signal_strength = 0.3; again no per-evaluator exception
handling. -/
def TradingBot.analyze_signals (df : Frame) : Except Err (List Signal) :=
  match rsi_strategy df 35 65 with
  | .error e => .error e
  | .ok s1 =>
    match macd_cross_strategy df with
    | .error e => .error e
    | .ok s2 =>
      match bollinger_bands_strategy df with
      | .error e => .error e
      | .ok s3 =>
        match volume_price_strategy df with
        | .error e => .error e
        | .ok s4 =>
          .ok (keepStrong (3/10) s1 ++ keepStrong (3/10) s2 ++
            keepStrong (3/10) s3 ++ keepStrong (3/10) s4)

/-- Modelled from the claim under test, not from any one function of the
repository: the aggregator that the specification describes, running all
five evaluators (RSI, MACD-cross, Bollinger, volume-price, swing-trade)
and keeping only signals of strength at least the 0.3 default minimum. -/
def aggregatorFiveSpec (df : Frame) : Except Err (List Signal) :=
  match rsi_strategy df 35 65 with
  | .error e => .error e
  | .ok s1 =>
    match macd_cross_strategy df with
    | .error e => .error e
    | .ok s2 =>
      match bollinger_bands_strategy df with
      | .error e => .error e
      | .ok s3 =>
        match volume_price_strategy df with
        | .error e => .error e
        | .ok s4 =>
          .ok (keepStrong (3/10) s1 ++ keepStrong (3/10) s2 ++
            keepStrong (3/10) s3 ++ keepStrong (3/10) s4 ++
            keepStrong (3/10) (swing_trade_strategy df))

/-- One record of the simulator trade log.  A BUY record carries cost and
no revenue, a SELL record revenue and no cost (the Python dict has one of
the two keys); capital is the cash balance after the trade. -/
structure Trade where
  date : ℕ
  ttype : SigType
  price : ℚ
  shares : ℤ
  cost : Option ℚ
  revenue : Option ℚ
  capital : ℚ
  reason : String
deriving DecidableEq, Repr

/-- Mutable state of a Backtester instance during run_backtest. -/
structure BTState where
  capital : ℚ
  position : ℤ
  trades : List Trade
deriving DecidableEq, Repr

/-- Processing of one signal inside the replay loop: a BUY executes only
from a flat position, investing 95 percent of capital rounded down to
whole shares; a SELL executes only while holding, liquidating everything;
any other signal is dropped. -/
def applySignal (date : ℕ) (price : ℚ) (st : BTState) (sg : Signal) : BTState :=
  if sg.type = .BUY ∧ st.position = 0 then
    let shares := pyInt (st.capital * (95/100) / price)
    let cost := (shares : ℚ) * price
    { capital := st.capital - cost
      position := shares
      trades := st.trades ++ [⟨date, .BUY, price, shares, some cost, none,
        st.capital - cost, sg.reason⟩] }
  else if sg.type = .SELL ∧ 0 < st.position then
    let revenue := (st.position : ℚ) * price
    { capital := st.capital + revenue
      position := 0
      trades := st.trades ++ [⟨date, .SELL, price, st.position, none,
        some revenue, st.capital + revenue, sg.reason⟩] }
  else st

/-- df.iloc[:k], the prefix frame of the first k bars. -/
def takeBars (df : Frame) (k : ℕ) : Frame :=
  ⟨df.close.take k, df.high.take k, df.low.take k, df.volume.take k,
   df.rsi.map (fun l => l.take k), df.macd.map (fun l => l.take k),
   df.macdSignal.map (fun l => l.take k), df.bbHigh.map (fun l => l.take k),
   df.bbLow.map (fun l => l.take k)⟩

/-- One iteration of the replay loop at bar index i: skip while fewer than
20 bars are available, otherwise analyze the prefix and fold its signals
into the ledger; an exception aborts the whole run. -/
def applyBar (df : Frame) (st : BTState) (i : ℕ) : Except Err BTState :=
  let pre := takeBars df (i + 1)
  if pre.len < 20 then .ok st
  else
    match Backtester.analyze_signals pre with
    | .error e => .error e
    | .ok sigs =>
      match ilocNeg pre.close 1 with
      | none => .error "IndexError"
      | some price => .ok (sigs.foldl (applySignal i price) st)

/-- The replay loop of run_backtest over every bar index. -/
def btFold (initCap : ℚ) (df : Frame) : Except Err BTState :=
  (List.range df.len).foldl
    (fun est i =>
      match est with
      | .error e => .error e
      | .ok st => applyBar df st i)
    (.ok ⟨initCap, 0, []⟩)

/-- The profitable-pair count of calculate_metrics: adjacent pairs at
indices (0,1), (2,3), ... reading cost from the even and revenue from the
odd record; none models the KeyError raised when a record of a pair lacks
the expected key, and a dangling last record is ignored. -/
def pairProfits : List Trade → Option ℕ
  | [] => some 0
  | [_] => some 0
  | b :: s :: rest =>
    match b.cost, s.revenue, pairProfits rest with
    | some c, some r, some n => some (n + if 0 < r - c then 1 else 0)
    | _, _, _ => none

/-- The metrics record returned by calculate_metrics. -/
structure Metrics where
  totalTrades : ℕ
  profitableTrades : ℕ
  totalReturn : ℚ
  returnPct : ℚ
  trades : List Trade
deriving DecidableEq, Repr

/-- Backtester.calculate_metrics: zeros for an empty log; otherwise paired
trade count, profitable pairs, and the return computed from the final
capital, marking still-held shares to the last trade price.  none models
an exception (KeyError on a malformed pair, or ZeroDivisionError when
initial capital is zero). -/
def calculateMetrics (initCap : ℚ) (st : BTState) : Option Metrics :=
  match st.trades with
  | [] => some ⟨0, 0, 0, 0, []⟩
  | t0 :: rest =>
    match pairProfits (t0 :: rest) with
    | none => none
    | some p =>
      let lastTrade := (t0 :: rest).getLast (List.cons_ne_nil t0 rest)
      let finalCapital := st.capital +
        (if 0 < st.position then (st.position : ℚ) * lastTrade.price else 0)
      let totalReturn := finalCapital - initCap
      if initCap = 0 then none
      else some ⟨(t0 :: rest).length / 2, p, totalReturn,
        totalReturn / initCap * 100, t0 :: rest⟩

/-- Backtester.run_backtest on an indicator-augmented frame: the replay
loop followed by calculate_metrics, any exception yielding None. -/
def run_backtest (initCap : ℚ) (df : Frame) : Option Metrics :=
  match btFold initCap df with
  | .error _ => none
  | .ok st => calculateMetrics initCap st

/-- The successive ledger states while the signals of one bar are folded
in, newest last; instrumentation of the inner for-loop of run_backtest. -/
def applyTrace (date : ℕ) (price : ℚ) (st : BTState) :
    List Signal → List BTState
  | [] => []
  | sg :: rest =>
    applySignal date price st sg ::
      applyTrace date price (applySignal date price st sg) rest

/-- The successive ledger states over a list of bar indices, stopping at
the bar where an exception aborts the replay; instrumentation of the outer
for-loop of run_backtest. -/
def barsTrace (df : Frame) (st : BTState) : List ℕ → List BTState
  | [] => []
  | i :: rest =>
    if (takeBars df (i + 1)).len < 20 then barsTrace df st rest
    else
      match Backtester.analyze_signals (takeBars df (i + 1)),
            ilocNeg (takeBars df (i + 1)).close 1 with
      | .ok sigs, some price =>
        applyTrace i price st sigs ++
          barsTrace df (sigs.foldl (applySignal i price) st) rest
      | _, _ => []

/-- Every ledger state a backtest run passes through, the initial state
included. -/
def btTrace (initCap : ℚ) (df : Frame) : List BTState :=
  ⟨initCap, 0, []⟩ :: barsTrace df ⟨initCap, 0, []⟩ (List.range df.len)

/-- Number of BUY records in a trade log. -/
def countB (l : List Trade) : ℕ := (l.filter (fun t => t.ttype = .BUY)).length

/-- Number of SELL records in a trade log. -/
def countS (l : List Trade) : ℕ := (l.filter (fun t => t.ttype = .SELL)).length

/-- BUY records minus SELL records, as an integer. -/
def diffZ (l : List Trade) : ℤ := (countB l : ℤ) - (countS l : ℤ)

/-- Every leading portion of the log has between zero and one more BUY
records than SELL records. -/
def balancedLog (l : List Trade) : Prop :=
  ∀ k : ℕ, 0 ≤ diffZ (l.take k) ∧ diffZ (l.take k) ≤ 1

/-- Every BUY record of the log bought at least one share. -/
def buysPositive (l : List Trade) : Prop :=
  ∀ t ∈ l, t.ttype = .BUY → 1 ≤ t.shares

/-- Every BUY record spent no more than the capital available just before
it: its cost c satisfies c ≤ capital-after + c, the capital before. -/
def costWithinCapital (l : List Trade) : Prop :=
  ∀ t ∈ l, t.ttype = .BUY → ∃ c, t.cost = some c ∧ c ≤ t.capital + c

/-- Inductive invariant of the replay: nonnegative cash and position,
affordable BUY records, and, whenever every BUY in the log bought at least
one share, a balanced log whose imbalance mirrors the open position. -/
def BTInv (st : BTState) : Prop :=
  0 ≤ st.capital ∧ 0 ≤ st.position ∧ costWithinCapital st.trades ∧
    (buysPositive st.trades →
      balancedLog st.trades ∧
        diffZ st.trades = if 0 < st.position then 1 else 0)

/-- dropWhile never lengthens a list. -/
theorem dropWhile_length_le {α : Type} (p : α → Bool) (l : List α) :
    (l.dropWhile p).length ≤ l.length := by
  induction l with
  | nil => simp [List.dropWhile]
  | cons a l ih =>
    by_cases h : p a = true
    · rw [List.dropWhile_cons_of_pos h]
      exact Nat.le_succ_of_le ih
    · rw [List.dropWhile_cons_of_neg h]

/-- The greedy clusters described by the specification: the first value of
a sorted list opens a cluster that absorbs the following values lying
within the threshold of that first value; the remainder is clustered the
same way. -/
def clusterGroups (t : ℚ) : List ℚ → List (List ℚ)
  | [] => []
  | c :: rest =>
    (c :: rest.takeWhile (fun x => decide ((x - c) / c ≤ t))) ::
      clusterGroups t (rest.dropWhile (fun x => decide ((x - c) / c ≤ t)))
  termination_by l => l.length
  decreasing_by
    simp only [List.length_cons]
    exact Nat.lt_succ_of_le (dropWhile_length_le _ _)

/-- The clustering of the specification text: sort ascending, group
greedily against the first value of the open cluster, output the mean of
each cluster. -/
def clusterLevelsSpec (levels : List ℚ) (t : ℚ) : List ℚ :=
  (clusterGroups t (List.insertionSort (· ≤ ·) levels)).map listMean

/-- The well-formed pairing shape of a trade log assumed by the metrics
formulas: records pair up as BUY with cost then SELL with revenue, with at
most one dangling record at the end. -/
def pairsWellFormed : List Trade → Prop
  | [] => True
  | [_] => True
  | b :: s :: rest =>
    b.ttype = .BUY ∧ b.cost.isSome = true ∧ s.ttype = .SELL ∧
      s.revenue.isSome = true ∧ pairsWellFormed rest

/-- The profitable-pair count as the specification words it: among the
adjacent (buy, sell) pairs, those with revenue minus cost positive. -/
def profitablePairsSpec : List Trade → ℕ
  | [] => 0
  | [_] => 0
  | b :: s :: rest =>
    (if 0 < s.revenue.getD 0 - b.cost.getD 0 then 1 else 0) +
      profitablePairsSpec rest

/-- C7: with the default thresholds 35 and 65 and last RSI value r in
[0,100], the RSI evaluator returns a BUY of strength 1 - r/35 when r < 35,
a SELL of strength (r - 65)/(100 - 65) when r > 65, and no signal
otherwise, the strength lying in [0,1] in both signalling cases. -/
theorem rsi_strategy_spec (df : Frame) (rl : List ℚ) (r p : ℚ)
    (hcol : df.rsi = some rl) (hr : exGet rl 1 = .ok r)
    (hp : exGet df.close 1 = .ok p) (h0 : 0 ≤ r) (h100 : r ≤ 100) :
    (r < 35 → rsi_strategy df 35 65 =
        .ok (some ⟨.BUY, p, "RSI oversold: " ++ fmt2 r, 1 - r / 35⟩) ∧
      0 ≤ 1 - r / 35 ∧ 1 - r / 35 ≤ 1) ∧
    (65 < r → rsi_strategy df 35 65 =
        .ok (some ⟨.SELL, p, "RSI overbought: " ++ fmt2 r,
          (r - 65) / (100 - 65)⟩) ∧
      0 ≤ (r - 65) / (100 - 65) ∧ (r - 65) / (100 - 65) ≤ 1) ∧
    (35 ≤ r → r ≤ 65 → rsi_strategy df 35 65 = .ok none) := by
  have hred : rsi_strategy df 35 65 =
      (if r < 35 then
        .ok (some ⟨.BUY, p, "RSI oversold: " ++ fmt2 r, 1 - r / 35⟩)
      else if (65 : ℚ) < r then
        .ok (some ⟨.SELL, p, "RSI overbought: " ++ fmt2 r,
          (r - 65) / (100 - 65)⟩)
      else .ok none) := by
    unfold rsi_strategy
    rw [hcol]
    simp only [colE]
    rw [hr, hp]
  refine ⟨fun h => ⟨?_, ?_, ?_⟩, fun h => ⟨?_, ?_, ?_⟩, fun h1 h2 => ?_⟩
  · rw [hred, if_pos h]
  · have : r / 35 ≤ 1 := by
      rw [div_le_one (by norm_num : (0:ℚ) < 35)]; linarith
    linarith
  · have : 0 ≤ r / 35 := by positivity
    linarith
  · rw [hred, if_neg (by linarith), if_pos h]
  · have : (0:ℚ) ≤ r - 65 := by linarith
    positivity
  · rw [div_le_one (by norm_num : (0:ℚ) < 100 - 65)]; linarith
  · rw [hred, if_neg (by linarith), if_neg (by linarith)]

/-- One-bar frame with last RSI 20, for the oversold case. -/
def w7a : Frame := ⟨[10], [10], [10], [10], some [20], none, none, none, none⟩

/-- One-bar frame with last RSI 50, for the neutral case. -/
def w7b : Frame := ⟨[10], [10], [10], [10], some [50], none, none, none, none⟩

/-- One-bar frame with last RSI 80, for the overbought case. -/
def w7c : Frame := ⟨[10], [10], [10], [10], some [80], none, none, none, none⟩

/-- Witness for C7 at the three particular RSI values named by the
specification: 20 gives a BUY of strength 1 - 20/35, 50 gives no signal,
80 gives a SELL of strength (80 - 65)/35. -/
theorem rsi_strategy_spec_witness :
    rsi_strategy w7a 35 65 =
      .ok (some ⟨.BUY, 10, "RSI oversold: " ++ fmt2 20, 1 - 20 / 35⟩) ∧
    rsi_strategy w7b 35 65 = .ok none ∧
    rsi_strategy w7c 35 65 =
      .ok (some ⟨.SELL, 10, "RSI overbought: " ++ fmt2 80,
        (80 - 65) / (100 - 65)⟩) :=
  ⟨((rsi_strategy_spec w7a [20] 20 10 rfl rfl rfl (by norm_num)
      (by norm_num)).1 (by norm_num)).1,
   (rsi_strategy_spec w7b [50] 50 10 rfl rfl rfl (by norm_num)
      (by norm_num)).2.2 (by norm_num) (by norm_num),
   ((rsi_strategy_spec w7c [80] 80 10 rfl rfl rfl (by norm_num)
      (by norm_num)).2.1 (by norm_num)).1⟩

/-- C8: for any three sub-estimator results, the combiner returns the
majority of UP against DOWN votes with strength average confidence times
the vote share and a reason naming k/3 indicators, and on a tie (the
all-SIDEWAYS case included) returns SIDEWAYS with the average confidence
and reason Mixed signals. -/
theorem combine_signals_spec (d1 d2 d3 : Direction) (c1 c2 c3 : ℚ) :
    (([d1, d2, d3].filter (fun d => d = Direction.DOWN)).length <
        ([d1, d2, d3].filter (fun d => d = Direction.UP)).length →
      TrendPredictor.combine_signals [d1, d2, d3] [c1, c2, c3] =
        (.UP, (c1 + c2 + c3) / 3 *
            ((([d1, d2, d3].filter (fun d => d = Direction.UP)).length : ℚ) / 3),
          "Bullish signals: " ++
            toString ([d1, d2, d3].filter (fun d => d = Direction.UP)).length ++
            "/3 indicators")) ∧
    (([d1, d2, d3].filter (fun d => d = Direction.UP)).length <
        ([d1, d2, d3].filter (fun d => d = Direction.DOWN)).length →
      TrendPredictor.combine_signals [d1, d2, d3] [c1, c2, c3] =
        (.DOWN, (c1 + c2 + c3) / 3 *
            ((([d1, d2, d3].filter (fun d => d = Direction.DOWN)).length : ℚ) / 3),
          "Bearish signals: " ++
            toString ([d1, d2, d3].filter (fun d => d = Direction.DOWN)).length ++
            "/3 indicators")) ∧
    (([d1, d2, d3].filter (fun d => d = Direction.UP)).length =
        ([d1, d2, d3].filter (fun d => d = Direction.DOWN)).length →
      TrendPredictor.combine_signals [d1, d2, d3] [c1, c2, c3] =
        (.SIDEWAYS, (c1 + c2 + c3) / 3, "Mixed signals")) := by
  cases d1 <;> cases d2 <;> cases d3 <;>
    refine ⟨fun h => ?_, fun h => ?_, fun h => ?_⟩ <;>
    first
      | exact absurd h (by decide)
      | (simp [TrendPredictor.combine_signals, List.filter]
         and_intros <;> first | rfl | ring)

/-- Witness for C8 at the tie named by the specification: three SIDEWAYS
votes with confidences 0.3 give SIDEWAYS, strength 0.3, Mixed signals. -/
theorem combine_signals_spec_witness :
    TrendPredictor.combine_signals [.SIDEWAYS, .SIDEWAYS, .SIDEWAYS]
      [3/10, 3/10, 3/10] = (.SIDEWAYS, 3/10, "Mixed signals") := by
  have h := (combine_signals_spec .SIDEWAYS .SIDEWAYS .SIDEWAYS
    (3/10) (3/10) (3/10)).2.2 (by decide)
  rw [h]
  norm_num

/-- The greedy loop of cluster_levels produces exactly the means of the
greedy clusters described by the specification. -/
theorem clusterGo_eq (t : ℚ) (xs : List ℚ) : ∀ (c : ℚ) (acc : List ℚ),
    clusterGo t c acc xs =
      listMean (c :: (acc ++ xs.takeWhile (fun x => decide ((x - c) / c ≤ t)))) ::
        (clusterGroups t
          (xs.dropWhile (fun x => decide ((x - c) / c ≤ t)))).map listMean := by
  induction xs with
  | nil =>
    intro c acc
    simp [clusterGo, clusterGroups, listMean]
    ring
  | cons lv rest ih =>
    intro c acc
    by_cases h : (lv - c) / c ≤ t
    · rw [clusterGo, if_pos h, ih c (acc ++ [lv]),
        List.takeWhile_cons_of_pos (by simpa using h),
        List.dropWhile_cons_of_pos (by simpa using h)]
      simp
    · rw [clusterGo, if_neg h, ih lv [],
        List.takeWhile_cons_of_neg (by simpa using h),
        List.dropWhile_cons_of_neg (by simpa using h)]
      rw [clusterGroups]
      simp [listMean]
      ring

/-- C9: cluster_levels is the deterministic procedure of the
specification, sorting ascending and greedily grouping each value against
the first value of the open cluster and emitting cluster means; on
[100, 100.5, 200] with threshold 0.02 it yields [100.25, 200]. -/
theorem cluster_levels_spec_eq :
    (∀ (l : List ℚ) (t : ℚ), cluster_levels l t = clusterLevelsSpec l t) ∧
    cluster_levels [100, 100.5, 200] (2/100) = [100.25, 200] := by
  constructor
  · intro l t
    unfold cluster_levels clusterLevelsSpec
    cases h : List.insertionSort (· ≤ ·) l with
    | nil => simp [clusterGroups]
    | cons c rest =>
      show clusterGo t c [] rest = List.map listMean (clusterGroups t (c :: rest))
      rw [clusterGo_eq, clusterGroups]
      simp
  · norm_num [cluster_levels, List.insertionSort, List.orderedInsert, clusterGo]

/-- Bounds for the swing strength formula: with a nonnegative volume
contribution, an RSI contribution of at least 0.1 and a distance under the
0.02 threshold, the clamped sum lies strictly between 0.4 and 1. -/
theorem swing_strength_helper (A B d : ℚ) (hA : 0 ≤ A) (hB : 1/10 ≤ B)
    (hd : d < 2/100) :
    2/5 < min 1 ((3/10) + A + B + (2/10) * (1 - d / (2/100))) ∧
    min 1 ((3/10) + A + B + (2/10) * (1 - d / (2/100))) ≤ 1 := by
  constructor
  · apply lt_min (by norm_num)
    have h50 : d / (2/100) = 50 * d := by ring
    rw [h50]
    nlinarith
  · exact min_le_left _ _

/-- C10: every signal the swing-trade evaluator emits has strength
strictly above 0.4 and at most 1, so the default 0.3 minimum-strength
filter of the aggregator never removes a swing signal. -/
theorem swing_strength_bounds (df : Frame) (sig : Signal)
    (h : swing_trade_strategy df = some sig) :
    2/5 < sig.strength ∧ sig.strength ≤ 1 ∧ 3/10 ≤ sig.strength := by
  have hrw : ∀ q : ℚ, q / (2/100) = 50 * q := fun q => by ring
  unfold swing_trade_strategy at h
  rcases hsc : swingCore df with e | r
  · rw [hsc] at h
    exact absurd h (by simp [exCatch])
  · rw [hsc] at h
    simp only [exCatch] at h
    subst h
    unfold swingCore at hsc
    dsimp only at hsc
    repeat' split at hsc
    all_goals simp only [Except.ok.injEq, Option.some.injEq, reduceCtorEq] at hsc
    all_goals rename_i hcond hvol hrsi
    all_goals obtain ⟨hd, -, -, -⟩ := hcond
    all_goals rw [← hsc]
    all_goals simp only [hrw] at hd ⊢
    all_goals
      exact ⟨lt_min (by norm_num) (by linarith), min_le_left _ _,
        le_min (by norm_num) (by linarith)⟩

/-- The except-handler commutes with a branch on a decidable condition. -/
theorem exCatch_ite (c : Prop) [Decidable c] (x y : Except Err (Option Signal)) :
    exCatch (if c then x else y) = if c then exCatch x else exCatch y := by
  split <;> simp [*]

/-- Reduction of the swing evaluator under the guards it checks on the
way in: with at least 20 bars, readable columns, nonempty level sets and
nonzero nearest levels, the evaluator is exactly the two-sided condition
check of its BUY and SELL branches. -/
theorem swingRed (df : Frame) (rl sup res : List ℚ)
    (price cv rsi prevRsi s r av : ℚ)
    (h20 : ¬ df.len < 20)
    (hprice : exGet df.close 1 = .ok price)
    (hcv : exGet df.volume 1 = .ok cv)
    (hav : rollMean 20 1 df.volume = some av)
    (hcol : df.rsi = some rl)
    (hr1 : exGet rl 1 = .ok rsi)
    (hr2 : exGet rl 2 = .ok prevRsi)
    (hsr : find_support_resistance df 20 (2/100) = (sup, res))
    (hsne : sup ≠ []) (hrne : res ≠ [])
    (hns : listMaxOpt (sup.filter (fun x => decide (x < price))) = some s)
    (hnr : listMinOpt (res.filter (fun x => decide (price < x))) = some r)
    (hs0 : s ≠ 0) (hr0 : r ≠ 0) :
    swing_trade_strategy df =
      (if (price - s) / s < 2/100 ∧
          optGT (rollMin 5 1 df.low) (rollMin 5 5 df.low) = true ∧
          rsi < 40 ∧ prevRsi < rsi then
        some ⟨.BUY, price, "Swing Trade BUY: Near support " ++ fmt2 s,
          min 1 ((3/10) + (if (3/2) * av < cv then (2:ℚ)/10 else 0) +
            (if rsi < 30 then (3:ℚ)/10 else 1/10) +
            (2/10) * (1 - ((price - s) / s) / (2/100)))⟩
      else if (r - price) / price < 2/100 ∧
          optLT (rollMax 5 1 df.high) (rollMax 5 5 df.high) = true ∧
          60 < rsi ∧ rsi < prevRsi then
        some ⟨.SELL, price, "Swing Trade SELL: Near resistance " ++ fmt2 r,
          min 1 ((3/10) + (if (3/2) * av < cv then (2:ℚ)/10 else 0) +
            (if 70 < rsi then (3:ℚ)/10 else 1/10) +
            (2/10) * (1 - ((r - price) / price) / (2/100)))⟩
      else none) := by
  have hsupE : sup.isEmpty = false := by
    cases sup with
    | nil => exact absurd rfl hsne
    | cons a l => rfl
  have hresE : res.isEmpty = false := by
    cases res with
    | nil => exact absurd rfl hrne
    | cons a l => rfl
  unfold swing_trade_strategy swingCore
  simp only [if_neg h20, hprice, hcv, hav, hcol, colE, hr1, hr2, hsr, hsupE,
    hresE, Bool.or_self, Bool.false_eq_true, if_false, hns, hnr,
    decide_eq_true_eq, hs0, hr0, or_self, ite_false]
  rw [exCatch_ite, exCatch_ite]
  rfl

/-- C4 (amended): for a series of at least 20 bars with readable RSI and
volume columns, nonempty support and resistance level sets, a nonzero
nearest support below the current price AND a nonzero nearest resistance
above it (this last hypothesis is what the original claim lacks), the
swing evaluator emits BUY exactly when the support distance is under 0.02,
the rolling 5-bar minimum low exceeds its value from iloc[-5], RSI < 40
and RSI rose against the previous bar, with the claimed strength
min(1, 0.3 + (0.2 if volume surge) + (0.3 if RSI < 30 else 0.1) +
0.2 (1 - support distance / 0.02)). -/
theorem swing_buy_spec (df : Frame) (rl sup res : List ℚ)
    (price cv rsi prevRsi s r av : ℚ)
    (h20 : ¬ df.len < 20)
    (hprice : exGet df.close 1 = .ok price)
    (hcv : exGet df.volume 1 = .ok cv)
    (hav : rollMean 20 1 df.volume = some av)
    (hcol : df.rsi = some rl)
    (hr1 : exGet rl 1 = .ok rsi)
    (hr2 : exGet rl 2 = .ok prevRsi)
    (hsr : find_support_resistance df 20 (2/100) = (sup, res))
    (hsne : sup ≠ []) (hrne : res ≠ [])
    (hns : listMaxOpt (sup.filter (fun x => decide (x < price))) = some s)
    (hnr : listMinOpt (res.filter (fun x => decide (price < x))) = some r)
    (hs0 : s ≠ 0) (hr0 : r ≠ 0) :
    ((price - s) / s < 2/100 ∧
        optGT (rollMin 5 1 df.low) (rollMin 5 5 df.low) = true ∧
        rsi < 40 ∧ prevRsi < rsi →
      swing_trade_strategy df = some ⟨.BUY, price,
        "Swing Trade BUY: Near support " ++ fmt2 s,
        min 1 ((3/10) + (if (3/2) * av < cv then (2:ℚ)/10 else 0) +
          (if rsi < 30 then (3:ℚ)/10 else 1/10) +
          (2/10) * (1 - ((price - s) / s) / (2/100)))⟩) ∧
    (∀ sig : Signal, swing_trade_strategy df = some sig → sig.type = .BUY →
      ((price - s) / s < 2/100 ∧
        optGT (rollMin 5 1 df.low) (rollMin 5 5 df.low) = true ∧
        rsi < 40 ∧ prevRsi < rsi) ∧
      sig = ⟨.BUY, price, "Swing Trade BUY: Near support " ++ fmt2 s,
        min 1 ((3/10) + (if (3/2) * av < cv then (2:ℚ)/10 else 0) +
          (if rsi < 30 then (3:ℚ)/10 else 1/10) +
          (2/10) * (1 - ((price - s) / s) / (2/100)))⟩) := by
  have hred := swingRed df rl sup res price cv rsi prevRsi s r av h20 hprice
    hcv hav hcol hr1 hr2 hsr hsne hrne hns hnr hs0 hr0
  constructor
  · intro hc
    rw [hred, if_pos hc]
  · intro sig hsig htype
    rw [hred] at hsig
    by_cases h1 : (price - s) / s < 2/100 ∧
        optGT (rollMin 5 1 df.low) (rollMin 5 5 df.low) = true ∧
        rsi < 40 ∧ prevRsi < rsi
    · rw [if_pos h1] at hsig
      injection hsig with h
      exact ⟨h1, h.symm⟩
    · rw [if_neg h1] at hsig
      by_cases h2 : (r - price) / price < 2/100 ∧
          optLT (rollMax 5 1 df.high) (rollMax 5 5 df.high) = true ∧
          60 < rsi ∧ rsi < prevRsi
      · rw [if_pos h2] at hsig
        injection hsig with h
        rw [← h] at htype
        exact absurd htype (by simp)
      · rw [if_neg h2] at hsig
        exact absurd hsig (by simp)

/-- Low column of the 41-bar frames: a pivot low of 100 at bar 20, rising recent lows -/
def lows41 : List ℚ :=
  [1003/10, 1003/10, 1003/10, 1003/10, 1003/10, 1003/10, 1003/10, 1003/10, 
   1003/10, 1003/10, 1003/10, 1003/10, 1003/10, 1003/10, 1003/10, 1003/10, 
   1003/10, 1003/10, 1003/10, 1003/10, 100, 1002/10, 1002/10, 1002/10, 
   1002/10, 1002/10, 1002/10, 1002/10, 1002/10, 1002/10, 1002/10, 1002/10, 
   1002/10, 1002/10, 1002/10, 1002/10, 2009/20, 2009/20, 2009/20, 2009/20, 
   1009/10]

/-- High column with a pivot high of 103 at bar 20, above the last close of 101 -/
def highsA41 : List ℚ :=
  [1004/10, 1004/10, 1004/10, 1004/10, 1004/10, 1004/10, 1004/10, 1004/10, 
   1004/10, 1004/10, 1004/10, 1004/10, 1004/10, 1004/10, 1004/10, 1004/10, 
   1004/10, 1004/10, 1004/10, 1004/10, 103, 1004/10, 1004/10, 1004/10, 
   1004/10, 1004/10, 1004/10, 1004/10, 1004/10, 1004/10, 1004/10, 1004/10, 
   1004/10, 1004/10, 1004/10, 1004/10, 1004/10, 1004/10, 1004/10, 1004/10, 
   203/2]

/-- High column with a pivot high of 100.5 at bar 20, below the last close of 101 -/
def highsB41 : List ℚ :=
  [1004/10, 1004/10, 1004/10, 1004/10, 1004/10, 1004/10, 1004/10, 1004/10, 
   1004/10, 1004/10, 1004/10, 1004/10, 1004/10, 1004/10, 1004/10, 1004/10, 
   1004/10, 1004/10, 1004/10, 1004/10, 201/2, 1004/10, 1004/10, 1004/10, 
   1004/10, 1004/10, 1004/10, 1004/10, 1004/10, 1004/10, 1004/10, 1004/10, 
   1004/10, 1004/10, 1004/10, 1004/10, 1004/10, 1004/10, 1004/10, 1004/10, 
   203/2]

/-- Volume column of the 41-bar frames: a spike of 1000 at bar 20 -/
def vols41 : List ℚ :=
  [10, 10, 10, 10, 10, 10, 10, 10, 10, 10, 10, 10, 10, 10, 10, 10, 10, 10, 
   10, 10, 1000, 10, 10, 10, 10, 10, 10, 10, 10, 10, 10, 10, 10, 10, 10, 
   10, 10, 10, 10, 10, 10]

/-- RSI column of the 41-bar frames: previous bar 30, last bar 35 -/
def rsi41 : List ℚ :=
  [50, 50, 50, 50, 50, 50, 50, 50, 50, 50, 50, 50, 50, 50, 50, 50, 50, 50, 
   50, 50, 50, 50, 50, 50, 50, 50, 50, 50, 50, 50, 50, 50, 50, 50, 50, 50, 
   50, 50, 50, 30, 35]

/-- Close column of the 41-bar frames: last close 101 -/
def close41 : List ℚ :=
  [1003/10, 1003/10, 1003/10, 1003/10, 1003/10, 1003/10, 1003/10, 1003/10, 
   1003/10, 1003/10, 1003/10, 1003/10, 1003/10, 1003/10, 1003/10, 1003/10, 
   1003/10, 1003/10, 1003/10, 1003/10, 1003/10, 1003/10, 1003/10, 1003/10, 
   1003/10, 1003/10, 1003/10, 1003/10, 1003/10, 1003/10, 1003/10, 1003/10, 
   1003/10, 1003/10, 1003/10, 1003/10, 1003/10, 1003/10, 1003/10, 1003/10, 
   101]

/-- A 41-bar frame on which the swing evaluator fires a BUY: support pivot
100 below the last close 101, resistance pivot 103 above it, higher lows,
RSI rising from 30 to 35. -/
def cex10f : Frame :=
  ⟨close41, highsA41, lows41, vols41, some rsi41, none, none, none, none⟩

/-- The same frame except that the only resistance pivot, 100.5, lies
below the last close 101, so no nearest resistance above price exists even
though the resistance level set is nonempty. -/
def cex4f : Frame :=
  ⟨close41, highsB41, lows41, vols41, some rsi41, none, none, none, none⟩

/-- Bar 20 is the only interior index at window 20 in a 41-bar frame. -/
theorem pivotIdxs41 : pivotIdxs 41 20 = [20] := rfl

/-- The support and resistance levels of the firing frame. -/
theorem fsr10 : find_support_resistance cex10f 20 (2/100) = ([100], [103]) := by
  have hsup : isSupportPivot lows41 vols41 20 20 = true := by
    norm_num [isSupportPivot, sliceL, lows41, vols41]
  have hres : isResistancePivot highsA41 vols41 20 20 = true := by
    norm_num [isResistancePivot, sliceL, highsA41, vols41]
  have hlen : cex10f.len = 41 := by norm_num [cex10f, Frame.len, close41]
  have hg : lows41[20]?.getD 0 = 100 := by norm_num [lows41]
  have hgh : highsA41[20]?.getD 0 = 103 := by norm_num [highsA41]
  have hlow : cex10f.low = lows41 := rfl
  have hhigh : cex10f.high = highsA41 := rfl
  have hvol : cex10f.volume = vols41 := rfl
  norm_num [find_support_resistance, supIdxs, resIdxs, hlen, hlow, hhigh,
    hvol, pivotIdxs41, hsup, hres, hg, hgh, cluster_levels, clusterGo,
    List.insertionSort, List.orderedInsert]

/-- The support and resistance levels of the frame whose resistance lies
below the current price. -/
theorem fsr4 : find_support_resistance cex4f 20 (2/100) = ([100], [201/2]) := by
  have hsup : isSupportPivot lows41 vols41 20 20 = true := by
    norm_num [isSupportPivot, sliceL, lows41, vols41]
  have hres : isResistancePivot highsB41 vols41 20 20 = true := by
    norm_num [isResistancePivot, sliceL, highsB41, vols41]
  have hlen : cex4f.len = 41 := by norm_num [cex4f, Frame.len, close41]
  have hg : lows41[20]?.getD 0 = 100 := by norm_num [lows41]
  have hgh : highsB41[20]?.getD 0 = 201/2 := by norm_num [highsB41]
  have hlow : cex4f.low = lows41 := rfl
  have hhigh : cex4f.high = highsB41 := rfl
  have hvol : cex4f.volume = vols41 := rfl
  norm_num [find_support_resistance, supIdxs, resIdxs, hlen, hlow, hhigh,
    hvol, pivotIdxs41, hsup, hres, hg, hgh, cluster_levels, clusterGo,
    List.insertionSort, List.orderedInsert]

/-- The 41-bar lows rise: the rolling 5-bar minimum at the last bar beats
the one at iloc[-5]. -/
theorem higherLows41 : optGT (rollMin 5 1 lows41) (rollMin 5 5 lows41) = true := by
  norm_num [optGT, rollMin, sliceL, lows41, listMin, min_def]

/-- The last close of the 41-bar frames. -/
theorem close41_last : exGet close41 1 = .ok 101 := by
  norm_num [exGet, ilocNeg, close41]

/-- The last volume of the 41-bar frames. -/
theorem vols41_last : exGet vols41 1 = .ok 10 := by
  norm_num [exGet, ilocNeg, vols41]

/-- The trailing 20-bar average volume of the 41-bar frames. -/
theorem vols41_avg : rollMean 20 1 vols41 = some 10 := by
  norm_num [rollMean, sliceL, vols41, listMean]

/-- The last RSI of the 41-bar frames. -/
theorem rsi41_last : exGet rsi41 1 = .ok 35 := by
  norm_num [exGet, ilocNeg, rsi41]

/-- The previous-bar RSI of the 41-bar frames. -/
theorem rsi41_prev : exGet rsi41 2 = .ok 30 := by
  norm_num [exGet, ilocNeg, rsi41]

/-- The 41-bar frames hold 41 bars. -/
theorem len41 : ¬ cex10f.len < 20 ∧ ¬ cex4f.len < 20 := by
  norm_num [cex10f, cex4f, Frame.len, close41]

/-- When every resistance level lies at or below the current price, the
swing evaluator returns no signal regardless of the BUY conditions. -/
theorem swingNoRes (df : Frame) (rl sup res : List ℚ)
    (price cv rsi prevRsi s : ℚ)
    (h20 : ¬ df.len < 20)
    (hprice : exGet df.close 1 = .ok price)
    (hcv : exGet df.volume 1 = .ok cv)
    (hcol : df.rsi = some rl)
    (hr1 : exGet rl 1 = .ok rsi)
    (hr2 : exGet rl 2 = .ok prevRsi)
    (hsr : find_support_resistance df 20 (2/100) = (sup, res))
    (hsne : sup ≠ []) (hrne : res ≠ [])
    (hns : listMaxOpt (sup.filter (fun x => decide (x < price))) = some s)
    (hnr : listMinOpt (res.filter (fun x => decide (price < x))) = none) :
    swing_trade_strategy df = none := by
  have hsupE : sup.isEmpty = false := by
    cases sup with
    | nil => exact absurd rfl hsne
    | cons a l => rfl
  have hresE : res.isEmpty = false := by
    cases res with
    | nil => exact absurd rfl hrne
    | cons a l => rfl
  unfold swing_trade_strategy swingCore
  simp only [if_neg h20, hprice, hcv, hcol, colE, hr1, hr2, hsr, hsupE,
    hresE, Bool.or_self, Bool.false_eq_true, if_false, hns, hnr, ite_false]
  rfl

/-- C4 counterexample: on this concrete 41-bar series every hypothesis and
every BUY condition of the claim holds -- at least 20 bars, nonempty
support and resistance sets, nearest support 100 below the price 101
within 2 percent, higher lows, RSI 35 under 40 and above the previous 30
-- yet the evaluator emits nothing, because its unstated extra guard finds
no resistance level above the price. -/
theorem swing_missing_resistance_cex :
    swing_trade_strategy cex4f = none ∧
    ¬ cex4f.len < 20 ∧
    (find_support_resistance cex4f 20 (2/100)).1 ≠ [] ∧
    (find_support_resistance cex4f 20 (2/100)).2 ≠ [] ∧
    listMaxOpt ((find_support_resistance cex4f 20 (2/100)).1.filter
      (fun x => decide (x < 101))) = some 100 ∧
    ((101 : ℚ) - 100) / 100 < 2/100 ∧
    optGT (rollMin 5 1 cex4f.low) (rollMin 5 5 cex4f.low) = true ∧
    exGet cex4f.close 1 = .ok 101 ∧
    cex4f.rsi = some rsi41 ∧ exGet rsi41 1 = .ok 35 ∧
    exGet rsi41 2 = .ok 30 ∧ (35 : ℚ) < 40 ∧ (30 : ℚ) < 35 := by
  refine ⟨?_, len41.2, ?_, ?_, ?_, by norm_num, higherLows41, close41_last,
    rfl, rsi41_last, rsi41_prev, by norm_num, by norm_num⟩
  · exact swingNoRes cex4f rsi41 [100] [201/2] 101 10 35 30 100 len41.2
      close41_last vols41_last rfl rsi41_last rsi41_prev fsr4
      (by norm_num) (by norm_num) (by norm_num [listMaxOpt])
      (by norm_num [listMinOpt])
  · rw [fsr4]
    norm_num
  · rw [fsr4]
    norm_num
  · rw [fsr4]
    norm_num [listMaxOpt]

/-- Witness for C4 on the firing 41-bar frame: all hypotheses and the BUY
conditions hold and the evaluator emits the claimed BUY with strength
min(1, 0.3 + 0 + 0.1 + 0.2 (1 - 0.01/0.02)) = 0.5. -/
theorem swing_buy_spec_witness :
    swing_trade_strategy cex10f = some ⟨.BUY, 101,
      "Swing Trade BUY: Near support " ++ fmt2 100,
      min 1 ((3/10) + (if (3/2) * (10:ℚ) < 10 then (2:ℚ)/10 else 0) +
        (if (35:ℚ) < 30 then (3:ℚ)/10 else 1/10) +
        (2/10) * (1 - (((101:ℚ) - 100) / 100) / (2/100)))⟩ :=
  (swing_buy_spec cex10f rsi41 [100] [103] 101 10 35 30 100 103 10
    len41.1 close41_last vols41_last vols41_avg rfl rsi41_last rsi41_prev
    fsr10 (by norm_num) (by norm_num) (by norm_num [listMaxOpt])
    (by norm_num [listMinOpt]) (by norm_num) (by norm_num)).1
    ⟨by norm_num, higherLows41, by norm_num, by norm_num⟩

/-- Witness for C10: on the firing 41-bar frame the emitted swing signal
exists and its strength obeys the bounds. -/
theorem swing_strength_bounds_witness :
    2/5 < (Signal.mk .BUY 101 ("Swing Trade BUY: Near support " ++ fmt2 100)
        (min 1 ((3/10) + (if (3/2) * (10:ℚ) < 10 then (2:ℚ)/10 else 0) +
          (if (35:ℚ) < 30 then (3:ℚ)/10 else 1/10) +
          (2/10) * (1 - (((101:ℚ) - 100) / 100) / (2/100))))).strength ∧
    (Signal.mk .BUY 101 ("Swing Trade BUY: Near support " ++ fmt2 100)
        (min 1 ((3/10) + (if (3/2) * (10:ℚ) < 10 then (2:ℚ)/10 else 0) +
          (if (35:ℚ) < 30 then (3:ℚ)/10 else 1/10) +
          (2/10) * (1 - (((101:ℚ) - 100) / 100) / (2/100))))).strength ≤ 1 := by
  have hswing : swing_trade_strategy cex10f =
      some (Signal.mk .BUY 101 ("Swing Trade BUY: Near support " ++ fmt2 100)
        (min 1 ((3/10) + (if (3/2) * (10:ℚ) < 10 then (2:ℚ)/10 else 0) +
          (if (35:ℚ) < 30 then (3:ℚ)/10 else 1/10) +
          (2/10) * (1 - (((101:ℚ) - 100) / 100) / (2/100))))) := by
    rw [swingRed cex10f rsi41 [100] [103] 101 10 35 30 100 103 10 len41.1
      close41_last vols41_last vols41_avg rfl rsi41_last rsi41_prev fsr10
      (by norm_num) (by norm_num) (by norm_num [listMaxOpt])
      (by norm_num [listMinOpt]) (by norm_num) (by norm_num)]
    rw [if_pos ⟨by norm_num, higherLows41, by norm_num, by norm_num⟩]
  have hb := swing_strength_bounds cex10f _ hswing
  exact ⟨hb.1, hb.2.1⟩

/-- Membership in a Python slice l[a:b] within bounds is indexed
membership. -/
theorem mem_sliceL {l : List ℚ} {a b : ℕ} (hb : b ≤ l.length) (x : ℚ) :
    x ∈ sliceL l a b ↔ ∃ j, a ≤ j ∧ j < b ∧ l.getD j 0 = x := by
  unfold sliceL
  rw [List.mem_iff_getElem]
  have hlen : ((l.take b).drop a).length = min b l.length - a := by
    simp [List.length_drop, List.length_take]
  constructor
  · rintro ⟨k, hk, hx⟩
    rw [hlen, Nat.min_eq_left hb] at hk
    refine ⟨a + k, Nat.le_add_right a k, by omega, ?_⟩
    have h1 : a + k < l.length := by omega
    rw [List.getD_eq_getElem l 0 h1, ← hx, List.getElem_drop,
      List.getElem_take]
  · rintro ⟨j, hj1, hj2, hx⟩
    refine ⟨j - a, ?_, ?_⟩
    · rw [hlen, Nat.min_eq_left hb]
      omega
    · have h1 : j < l.length := by omega
      rw [← hx, List.getD_eq_getElem l 0 h1, List.getElem_drop,
        List.getElem_take]
      congr 1
      omega

/-- Length of a Python slice l[a:b] within bounds. -/
theorem length_sliceL {l : List ℚ} {a b : ℕ} (hb : b ≤ l.length) :
    (sliceL l a b).length = b - a := by
  unfold sliceL
  simp [List.length_drop, List.length_take]
  omega

/-- C3 (amended): an interior bar i is reported as a support pivot exactly
when its low is at most every low of the w bars before it and of the w-1
bars immediately after it (indices i+1 through i+w-1; the original claim
said w bars after), and its volume exceeds the mean volume of the 2w bars
i-w through i+w-1 (the bar i itself included); symmetric with highs for
resistance pivots. -/
theorem pivot_rule_spec (df : Frame) (w i : ℕ)
    (hw : 1 ≤ w) (hwi : w ≤ i) (hin : i + w < df.len)
    (hl : df.low.length = df.len) (hh : df.high.length = df.len)
    (hv : df.volume.length = df.len) :
    (i ∈ supIdxs df w ↔
      ((∀ j, i - w ≤ j → j < i → df.low.getD i 0 ≤ df.low.getD j 0) ∧
       (∀ j, i + 1 ≤ j → j < i + w → df.low.getD i 0 ≤ df.low.getD j 0) ∧
       listMean (sliceL df.volume (i - w) (i + w)) < df.volume.getD i 0)) ∧
    (i ∈ resIdxs df w ↔
      ((∀ j, i - w ≤ j → j < i → df.high.getD j 0 ≤ df.high.getD i 0) ∧
       (∀ j, i + 1 ≤ j → j < i + w → df.high.getD j 0 ≤ df.high.getD i 0) ∧
       listMean (sliceL df.volume (i - w) (i + w)) < df.volume.getD i 0)) := by
  have hmem : i ∈ pivotIdxs df.len w := by
    unfold pivotIdxs
    rw [List.mem_range'_1]
    omega
  have hvb : i + w ≤ df.volume.length := by omega
  have hvlen : ((sliceL df.volume (i - w) (i + w)).length : ℚ) = ((2 * w : ℕ) : ℚ) := by
    rw [length_sliceL hvb]
    congr 1
    omega
  have hpos : (0 : ℚ) < ((2 * w : ℕ) : ℚ) := by
    have : 0 < 2 * w := by omega
    exact_mod_cast this
  have hvolIff : ((sliceL df.volume (i - w) (i + w)).sum <
      ((sliceL df.volume (i - w) (i + w)).length : ℚ) * df.volume.getD i 0) ↔
      listMean (sliceL df.volume (i - w) (i + w)) < df.volume.getD i 0 := by
    rw [hvlen]
    unfold listMean
    rw [hvlen, div_lt_iff₀ hpos, mul_comm]
  constructor
  · unfold supIdxs
    rw [List.mem_filter]
    simp only [hmem, true_and]
    unfold isSupportPivot
    simp only [Bool.and_eq_true, List.all_eq_true, decide_eq_true_eq]
    constructor
    · rintro ⟨⟨h1, h2⟩, h3⟩
      refine ⟨?_, ?_, hvolIff.mp h3⟩
      · intro j hj1 hj2
        exact h1 _ ((mem_sliceL (by omega) _).mpr ⟨j, hj1, hj2, rfl⟩)
      · intro j hj1 hj2
        exact h2 _ ((mem_sliceL (by omega) _).mpr ⟨j, hj1, hj2, rfl⟩)
    · rintro ⟨h1, h2, h3⟩
      refine ⟨⟨?_, ?_⟩, hvolIff.mpr h3⟩
      · intro x hx
        obtain ⟨j, hj1, hj2, rfl⟩ := (mem_sliceL (by omega) _).mp hx
        exact h1 j hj1 hj2
      · intro x hx
        obtain ⟨j, hj1, hj2, rfl⟩ := (mem_sliceL (by omega) _).mp hx
        exact h2 j hj1 hj2
  · unfold resIdxs
    rw [List.mem_filter]
    simp only [hmem, true_and]
    unfold isResistancePivot
    simp only [Bool.and_eq_true, List.all_eq_true, decide_eq_true_eq]
    constructor
    · rintro ⟨⟨h1, h2⟩, h3⟩
      refine ⟨?_, ?_, hvolIff.mp h3⟩
      · intro j hj1 hj2
        exact h1 _ ((mem_sliceL (by omega) _).mpr ⟨j, hj1, hj2, rfl⟩)
      · intro j hj1 hj2
        exact h2 _ ((mem_sliceL (by omega) _).mpr ⟨j, hj1, hj2, rfl⟩)
    · rintro ⟨h1, h2, h3⟩
      refine ⟨⟨?_, ?_⟩, hvolIff.mpr h3⟩
      · intro x hx
        obtain ⟨j, hj1, hj2, rfl⟩ := (mem_sliceL (by omega) _).mp hx
        exact h1 j hj1 hj2
      · intro x hx
        obtain ⟨j, hj1, hj2, rfl⟩ := (mem_sliceL (by omega) _).mp hx
        exact h2 j hj1 hj2

/-- A three-bar frame for the pivot window rules, scanned with window 1:
bar 1 has the middle low 4, a following lower low 3 at bar 2, and the
volume spike. -/
def cex3f : Frame :=
  ⟨[5, 4, 3], [10, 4, 20], [5, 4, 3], [1, 10, 1], none, none, none, none,
   none⟩

/-- C3 counterexample: with window 1, bar 1 of cex3f is reported as a
support pivot even though its low 4 is not at most the low 3 of the one
bar immediately after it -- the code checks only the w-1 bars i+1 through
i+w-1 after the pivot, an empty window here, not the w bars the claim
names. -/
theorem pivot_after_window_cex :
    1 ∈ supIdxs cex3f 1 ∧ ¬ (cex3f.low.getD 1 0 ≤ cex3f.low.getD 2 0) := by
  constructor
  · have hpiv : isSupportPivot cex3f.low cex3f.volume 1 1 = true := by
      norm_num [isSupportPivot, sliceL, cex3f]
    have hidx : pivotIdxs cex3f.len 1 = [1] := rfl
    unfold supIdxs
    rw [hidx]
    simp [hpiv]
  · norm_num [cex3f]

/-- Witness for C3 at cex3f with window 1: bar 1 satisfies the amended
support rule and is reported; it fails the amended resistance rule (its
high 4 is under the high 10 of the bar before) and is not reported. -/
theorem pivot_rule_spec_witness :
    1 ∈ supIdxs cex3f 1 ∧ 1 ∉ resIdxs cex3f 1 := by
  have h := pivot_rule_spec cex3f 1 1 (by norm_num) (by norm_num)
    (by norm_num [cex3f, Frame.len]) rfl rfl rfl
  constructor
  · refine h.1.mpr ⟨?_, ?_, ?_⟩
    · intro j hj1 hj2
      interval_cases j
      norm_num [cex3f]
    · intro j hj1 hj2
      omega
    · norm_num [cex3f, sliceL, listMean]
  · intro hmem
    obtain ⟨hb, -, -⟩ := h.2.mp hmem
    have h0 := hb 0 (by omega) (by omega)
    norm_num [cex3f] at h0

/-- A two-bar frame: last RSI 34 makes the RSI evaluator emit a weak BUY
of strength 1/35, under the 0.3 filter; nothing else fires. -/
def cex1f : Frame :=
  ⟨[10, 10], [10, 10], [10, 10], [1, 1], some [50, 34], some [1, 1],
   some [0, 0], some [50, 50], some [1, 1]⟩

/-- The weak RSI BUY signal of cex1f. -/
def rsiSig1 : Signal := ⟨.BUY, 10, "RSI oversold: " ++ fmt2 34, 1 - 34/35⟩

/-- Close (also used for high and low) of the volume-spike frame. -/
def closeV20 : List ℚ :=
  [10, 10, 10, 10, 10, 10, 10, 10, 10, 10, 10, 10, 10, 10, 10, 10, 10, 10, 
   10, 11]

/-- Volume column of the volume-spike frame. -/
def volV20 : List ℚ :=
  [1000, 1000, 1000, 1000, 1000, 1000, 1000, 1000, 1000, 1000, 1000, 1000, 
   1000, 1000, 1000, 1000, 1000, 1000, 1000, 1600]

/-- RSI column of the volume-spike frame. -/
def rsiV20 : List ℚ :=
  [50, 50, 50, 50, 50, 50, 50, 50, 50, 50, 50, 50, 50, 50, 50, 50, 50, 50, 
   50, 50]

/-- Flat MACD line of the volume-spike frame. -/
def onesV20 : List ℚ :=
  [1, 1, 1, 1, 1, 1, 1, 1, 1, 1, 1, 1, 1, 1, 1, 1, 1, 1, 1, 1]

/-- Flat MACD signal line of the volume-spike frame. -/
def zerosV20 : List ℚ :=
  [0, 0, 0, 0, 0, 0, 0, 0, 0, 0, 0, 0, 0, 0, 0, 0, 0, 0, 0, 0]

/-- Upper Bollinger band of the volume-spike frame. -/
def bbHighV20 : List ℚ :=
  [50, 50, 50, 50, 50, 50, 50, 50, 50, 50, 50, 50, 50, 50, 50, 50, 50, 50, 
   50, 50]

/-- Lower Bollinger band of the volume-spike frame. -/
def bbLowV20 : List ℚ :=
  [1, 1, 1, 1, 1, 1, 1, 1, 1, 1, 1, 1, 1, 1, 1, 1, 1, 1, 1, 1]

/-- A 20-bar frame with a closing volume spike and rising close, so only
the volume-price evaluator fires, with strength about 0.55. -/
def cexVolf : Frame :=
  ⟨closeV20, closeV20, closeV20, volV20, some rsiV20, some onesV20,
   some zerosV20, some bbHighV20, some bbLowV20⟩

/-- A one-bar frame without an RSI column but with Bollinger bands that
put the close well under the lower band. -/
def cex2f : Frame :=
  ⟨[10], [10], [10], [5], none, some [1], some [0], some [50], some [20]⟩

/-- The RSI evaluator on cex1f: a BUY of strength 1/35. -/
theorem rsi_cex1 : rsi_strategy cex1f 35 65 = .ok (some rsiSig1) := by
  norm_num [rsi_strategy, rsiSig1, cex1f, colE, exGet, ilocNeg]

/-- The MACD evaluator on cex1f: flat lines, no cross. -/
theorem macd_cex1 : macd_cross_strategy cex1f = .ok none := by
  norm_num [macd_cross_strategy, cex1f, colE, exGet, ilocNeg, Frame.len]

/-- The Bollinger evaluator on cex1f: close inside the bands. -/
theorem bb_cex1 : bollinger_bands_strategy cex1f = .ok none := by
  norm_num [bollinger_bands_strategy, cex1f, colE, exGet, ilocNeg]

/-- The volume evaluator on cex1f: too few bars. -/
theorem vol_cex1 : volume_price_strategy cex1f = .ok none := by
  norm_num [volume_price_strategy, cex1f, Frame.len]

/-- The swing evaluator on cex1f: too few bars. -/
theorem swing_cex1 : swing_trade_strategy cex1f = none := by
  norm_num [swing_trade_strategy, swingCore, exCatch, cex1f, Frame.len]

/-- The backtester aggregation on cex1f keeps the weak RSI BUY. -/
theorem backtester_cex1_eval :
    Backtester.analyze_signals cex1f = .ok [rsiSig1] := by
  unfold Backtester.analyze_signals
  rw [rsi_cex1, macd_cex1, bb_cex1, swing_cex1]
  simp

/-- When the support level set comes out empty, the swing evaluator
returns no signal. -/
theorem swingEmpty (df : Frame) (rl : List ℚ) (price cv rsi prevRsi : ℚ)
    (h20 : ¬ df.len < 20)
    (hprice : exGet df.close 1 = .ok price)
    (hcv : exGet df.volume 1 = .ok cv)
    (hcol : df.rsi = some rl)
    (hr1 : exGet rl 1 = .ok rsi)
    (hr2 : exGet rl 2 = .ok prevRsi)
    (hsup : (find_support_resistance df 20 (2/100)).1 = []) :
    swing_trade_strategy df = none := by
  unfold swing_trade_strategy swingCore
  simp only [if_neg h20, hprice, hcv, hcol, colE, hr1, hr2, hsup,
    List.isEmpty_nil, Bool.true_or, if_true]
  rfl

/-- Evaluators on cexVolf: only the volume-price evaluator fires. -/
theorem evals_cexVol :
    rsi_strategy cexVolf 35 65 = .ok none ∧
    macd_cross_strategy cexVolf = .ok none ∧
    bollinger_bands_strategy cexVolf = .ok none ∧
    swing_trade_strategy cexVolf = none ∧
    volume_price_strategy cexVolf = .ok (some ⟨.BUY, 11,
      "High volume price increase", min 1 (1600 / 1030 - 1)⟩) := by
  have hlen : cexVolf.len = 20 := by norm_num [cexVolf, Frame.len, closeV20]
  refine ⟨?_, ?_, ?_, ?_, ?_⟩
  · norm_num [rsi_strategy, cexVolf, rsiV20, closeV20, colE, exGet, ilocNeg]
  · norm_num [macd_cross_strategy, cexVolf, onesV20, zerosV20, closeV20,
      colE, exGet, ilocNeg, Frame.len]
  · norm_num [bollinger_bands_strategy, cexVolf, bbHighV20, bbLowV20,
      closeV20, colE, exGet, ilocNeg]
  · have hfsr : (find_support_resistance cexVolf 20 (2/100)).1 = [] := by
      have hidx : pivotIdxs cexVolf.len 20 = [] := by
        rw [hlen]
        rfl
      norm_num [find_support_resistance, supIdxs, hidx, cluster_levels,
        List.insertionSort]
    exact swingEmpty cexVolf rsiV20 11 1600 50 50 (by omega)
      (by norm_num [exGet, ilocNeg, cexVolf, closeV20])
      (by norm_num [exGet, ilocNeg, cexVolf, volV20]) rfl
      (by norm_num [exGet, ilocNeg, rsiV20])
      (by norm_num [exGet, ilocNeg, rsiV20]) hfsr
  · norm_num [volume_price_strategy, cexVolf, closeV20, volV20, exGet,
      ilocNeg, Frame.len, rollMean, sliceL, listMean]

/-- C1 counterexample: the signal list the backtest simulator acts on is
not the five-evaluator 0.3-filtered aggregation the claim describes, and
not the live-bot aggregation either.  On cex1f the backtester keeps a BUY
of strength 1/35 that the 0.3 filter drops; on cexVolf the aggregation
carries a volume-spike BUY that the backtester never computes. -/
theorem backtester_aggregator_mismatch :
    Backtester.analyze_signals cex1f ≠ aggregatorFiveSpec cex1f ∧
    Backtester.analyze_signals cexVolf ≠ aggregatorFiveSpec cexVolf ∧
    Backtester.analyze_signals cex1f ≠ TradingBot.analyze_signals cex1f := by
  obtain ⟨hr, hm, hb, hs, hv⟩ := evals_cexVol
  have ha1 : aggregatorFiveSpec cex1f = .ok [] := by
    unfold aggregatorFiveSpec
    rw [rsi_cex1, macd_cex1, bb_cex1, vol_cex1, swing_cex1]
    norm_num [keepStrong, rsiSig1]
  have hbot1 : TradingBot.analyze_signals cex1f = .ok [] := by
    unfold TradingBot.analyze_signals
    rw [rsi_cex1, macd_cex1, bb_cex1, vol_cex1]
    norm_num [keepStrong, rsiSig1]
  have hbV : Backtester.analyze_signals cexVolf = .ok [] := by
    unfold Backtester.analyze_signals
    rw [hr, hm, hb, hs]
    simp
  have haV : aggregatorFiveSpec cexVolf = .ok [⟨.BUY, 11,
      "High volume price increase", min 1 (1600 / 1030 - 1)⟩] := by
    unfold aggregatorFiveSpec
    rw [hr, hm, hb, hv, hs]
    norm_num [keepStrong, min_def]
  refine ⟨?_, ?_, ?_⟩
  · rw [backtester_cex1_eval, ha1]
    simp
  · rw [hbV, haV]
    simp
  · rw [backtester_cex1_eval, hbot1]
    simp

/-- C1 (amended): the signals the backtest simulator acts on are exactly
the unfiltered outputs of the four evaluators its own analyze_signals
runs -- RSI, MACD-cross, Bollinger and swing-trade, with volume-price
omitted and no minimum-strength filter applied. -/
theorem backtester_signals_characterization (df : Frame) (l : List Signal)
    (h : Backtester.analyze_signals df = .ok l) (s : Signal) :
    s ∈ l ↔ (rsi_strategy df 35 65 = .ok (some s) ∨
      macd_cross_strategy df = .ok (some s) ∨
      bollinger_bands_strategy df = .ok (some s) ∨
      swing_trade_strategy df = some s) := by
  unfold Backtester.analyze_signals at h
  cases h1 : rsi_strategy df 35 65 with
  | error e =>
    simp only [h1] at h
    exact Except.noConfusion h
  | ok o1 =>
    simp only [h1] at h
    cases h2 : macd_cross_strategy df with
    | error e =>
      simp only [h2] at h
      exact Except.noConfusion h
    | ok o2 =>
      simp only [h2] at h
      cases h3 : bollinger_bands_strategy df with
      | error e =>
        simp only [h3] at h
        exact Except.noConfusion h
      | ok o3 =>
        simp only [h3, Except.ok.injEq] at h
        subst h
        simp [List.mem_append, Option.mem_toList, Option.mem_def, h1, h2, h3]

/-- Witness for C1 at cex1f: the weak RSI BUY is in the backtester list
exactly because the RSI evaluator returned it. -/
theorem backtester_signals_characterization_witness :
    rsi_strategy cex1f 35 65 = .ok (some rsiSig1) ∧
    rsiSig1 ∈ ([rsiSig1] : List Signal) :=
  ⟨rsi_cex1, (backtester_signals_characterization cex1f [rsiSig1]
    backtester_cex1_eval rsiSig1).mpr (Or.inl rsi_cex1)⟩

/-- C2 counterexample: on cex2f, where the RSI column is missing, the
Bollinger evaluator alone would emit a BUY of strength 0.5, yet the
aggregation aborts with the KeyError of the RSI evaluator and no result
list is produced at all. -/
theorem evaluator_isolation_cex :
    Backtester.analyze_signals cex2f = .error "KeyError" ∧
    bollinger_bands_strategy cex2f =
      .ok (some ⟨.BUY, 10, "Price near lower Bollinger Band", 1/2⟩) := by
  constructor
  · have hr : rsi_strategy cex2f 35 65 = .error "KeyError" := by
      norm_num [rsi_strategy, cex2f, colE]
    unfold Backtester.analyze_signals
    rw [hr]
  · norm_num [bollinger_bands_strategy, cex2f, colE, exGet, ilocNeg]

/-- C2 (amended): isolation holds only for the swing-trade evaluator,
whose internal failures are caught and become no signal; whenever the
other three evaluators of the backtester aggregation return without
raising, the result is exactly their signals followed by the swing
result, whatever happened inside the swing try-block. -/
theorem evaluator_isolation_swing_only (df : Frame) (o1 o2 o3 : Option Signal)
    (h1 : rsi_strategy df 35 65 = .ok o1)
    (h2 : macd_cross_strategy df = .ok o2)
    (h3 : bollinger_bands_strategy df = .ok o3) :
    Backtester.analyze_signals df =
      .ok (o1.toList ++ o2.toList ++ o3.toList ++
        (swing_trade_strategy df).toList) := by
  unfold Backtester.analyze_signals
  rw [h1, h2, h3]

/-- Witness for C2 at cex1f: the three other evaluators succeed and the
aggregation is their outputs followed by the swing result. -/
theorem evaluator_isolation_swing_only_witness :
    Backtester.analyze_signals cex1f =
      .ok ((some rsiSig1).toList ++ (none : Option Signal).toList ++
        (none : Option Signal).toList ++
        (swing_trade_strategy cex1f).toList) :=
  evaluator_isolation_swing_only cex1f (some rsiSig1) none none
    rsi_cex1 macd_cex1 bb_cex1

/-- BUY-minus-SELL count is additive over append. -/
theorem diffZ_append (l1 l2 : List Trade) :
    diffZ (l1 ++ l2) = diffZ l1 + diffZ l2 := by
  simp only [diffZ, countB, countS, List.filter_append, List.length_append]
  push_cast
  ring

/-- A single BUY record counts plus one. -/
theorem diffZ_single_buy (t : Trade) (h : t.ttype = .BUY) : diffZ [t] = 1 := by
  simp [diffZ, countB, countS, List.filter, h]

/-- A single SELL record counts minus one. -/
theorem diffZ_single_sell (t : Trade) (h : t.ttype = .SELL) :
    diffZ [t] = -1 := by
  simp [diffZ, countB, countS, List.filter, h]

/-- Appending a BUY record to a balanced log with no open imbalance keeps
the log balanced. -/
theorem balanced_append_buy (l : List Trade) (t : Trade) (ht : t.ttype = .BUY)
    (hb : balancedLog l) (h0 : diffZ l = 0) : balancedLog (l ++ [t]) := by
  intro k
  rcases le_or_lt k l.length with hk | hk
  · rw [List.take_append_of_le_length hk]
    exact hb k
  · have h1 : (l ++ [t]).take k = l ++ [t] :=
      List.take_of_length_le (by simp; omega)
    rw [h1, diffZ_append, diffZ_single_buy t ht, h0]
    norm_num

/-- Appending a SELL record to a balanced log with one open BUY keeps the
log balanced. -/
theorem balanced_append_sell (l : List Trade) (t : Trade)
    (ht : t.ttype = .SELL) (hb : balancedLog l) (h1 : diffZ l = 1) :
    balancedLog (l ++ [t]) := by
  intro k
  rcases le_or_lt k l.length with hk | hk
  · rw [List.take_append_of_le_length hk]
    exact hb k
  · have h2 : (l ++ [t]).take k = l ++ [t] :=
      List.take_of_length_le (by simp; omega)
    rw [h2, diffZ_append, diffZ_single_sell t ht, h1]
    norm_num

/-- One signal application preserves the replay invariant when the bar
price is positive. -/
theorem applySignal_inv (d : ℕ) (p : ℚ) (hp : 0 < p) (st : BTState)
    (sg : Signal) (h : BTInv st) : BTInv (applySignal d p st sg) := by
  obtain ⟨hcap, hpos, hcost, hbal⟩ := h
  unfold applySignal
  split_ifs with h1 h2
  · -- executed BUY
    have harg : 0 ≤ st.capital * (95/100) / p := by positivity
    have hsh0 : (0:ℤ) ≤ pyInt (st.capital * (95/100) / p) := by
      unfold pyInt
      rw [if_pos harg]
      exact Int.floor_nonneg.mpr harg
    have hshle : ((pyInt (st.capital * (95/100) / p) : ℤ) : ℚ) ≤
        st.capital * (95/100) / p := by
      unfold pyInt
      rw [if_pos harg]
      exact Int.floor_le _
    have hcost' : ((pyInt (st.capital * (95/100) / p) : ℤ) : ℚ) * p ≤
        st.capital * (95/100) := by
      calc ((pyInt (st.capital * (95/100) / p) : ℤ) : ℚ) * p
          ≤ (st.capital * (95/100) / p) * p :=
            mul_le_mul_of_nonneg_right hshle (le_of_lt hp)
        _ = st.capital * (95/100) := div_mul_cancel₀ _ (ne_of_gt hp)
    refine ⟨by simp only; nlinarith, by simpa using hsh0, ?_, ?_⟩
    · intro t ht htype
      rcases List.mem_append.mp ht with hmem | hmem
      · exact hcost t hmem htype
      · simp only [List.mem_singleton] at hmem
        subst hmem
        exact ⟨_, rfl, by simp only; nlinarith⟩
    · intro hbp
      dsimp only at hbp
      have hbpOld : buysPositive st.trades :=
        fun t ht h' => hbp t (List.mem_append_left _ ht) h'
      obtain ⟨hbalOld, hdiffOld⟩ := hbal hbpOld
      rw [h1.2] at hdiffOld
      simp only [lt_self_iff_false, if_false] at hdiffOld
      have hrec : 1 ≤ pyInt (st.capital * (95/100) / p) :=
        hbp _ (List.mem_append_right _ (List.mem_singleton.mpr rfl)) rfl
      constructor
      · exact balanced_append_buy _ _ rfl hbalOld hdiffOld
      · rw [diffZ_append, diffZ_single_buy _ rfl, hdiffOld,
          if_pos (by simp only; omega)]
        norm_num
  · -- executed SELL
    have hrev : 0 ≤ (st.position : ℚ) * p :=
      mul_nonneg (by exact_mod_cast le_of_lt h2.2) (le_of_lt hp)
    refine ⟨by simp only; linarith, le_refl 0, ?_, ?_⟩
    · intro t ht htype
      rcases List.mem_append.mp ht with hmem | hmem
      · exact hcost t hmem htype
      · simp only [List.mem_singleton] at hmem
        subst hmem
        simp at htype
    · intro hbp
      have hbpOld : buysPositive st.trades :=
        fun t ht h' => hbp t (List.mem_append_left _ ht) h'
      obtain ⟨hbalOld, hdiffOld⟩ := hbal hbpOld
      rw [if_pos h2.2] at hdiffOld
      constructor
      · exact balanced_append_sell _ _ rfl hbalOld hdiffOld
      · rw [diffZ_append, diffZ_single_sell _ rfl, hdiffOld,
          if_neg (by simp only; omega)]
        norm_num
  · exact ⟨hcap, hpos, hcost, hbal⟩

/-- The last element read by iloc[-1] belongs to the series. -/
theorem ilocNeg_one_mem {l : List ℚ} {p : ℚ} (h : ilocNeg l 1 = some p) :
    p ∈ l := by
  unfold ilocNeg at h
  have hm : p ∈ l.reverse := by
    have := List.getElem?_mem h
    exact this
  exact List.mem_reverse.mp hm

/-- Every state of the inner signal trace of one bar, and the folded final
state, satisfy the invariant. -/
theorem applyTrace_inv (d : ℕ) (p : ℚ) (hp : 0 < p) :
    ∀ (sigs : List Signal) (st : BTState), BTInv st →
      (∀ st2 ∈ applyTrace d p st sigs, BTInv st2) ∧
      BTInv (sigs.foldl (applySignal d p) st) := by
  intro sigs
  induction sigs with
  | nil =>
    intro st h
    exact ⟨by simp [applyTrace], by simpa using h⟩
  | cons sg rest ih =>
    intro st h
    have h2 := applySignal_inv d p hp st sg h
    obtain ⟨ht, hf⟩ := ih (applySignal d p st sg) h2
    constructor
    · intro st2 hst2
      simp only [applyTrace, List.mem_cons] at hst2
      rcases hst2 with rfl | hst2
      · exact h2
      · exact ht st2 hst2
    · simpa [List.foldl_cons] using hf

/-- Every state of the replay trace satisfies the invariant when the
close prices are positive. -/
theorem barsTrace_inv (df : Frame) (hp : ∀ q ∈ df.close, 0 < q) :
    ∀ (is : List ℕ) (st : BTState), BTInv st →
      ∀ st2 ∈ barsTrace df st is, BTInv st2 := by
  intro is
  induction is with
  | nil =>
    intro st h st2 hst2
    simp [barsTrace] at hst2
  | cons i rest ih =>
    intro st h st2 hst2
    unfold barsTrace at hst2
    by_cases hlen : (takeBars df (i+1)).len < 20
    · rw [if_pos hlen] at hst2
      exact ih st h st2 hst2
    · rw [if_neg hlen] at hst2
      cases ha : Backtester.analyze_signals (takeBars df (i+1)) with
      | error e =>
        simp only [ha] at hst2
        simp at hst2
      | ok sigs =>
        cases hb : ilocNeg (takeBars df (i+1)).close 1 with
        | none =>
          simp only [ha, hb] at hst2
          simp at hst2
        | some price =>
          simp only [ha, hb] at hst2
          have hpr : 0 < price := by
            apply hp
            have hmem : price ∈ (takeBars df (i+1)).close := ilocNeg_one_mem hb
            have : (takeBars df (i+1)).close = df.close.take (i+1) := rfl
            rw [this] at hmem
            exact List.mem_of_mem_take hmem
          rcases List.mem_append.mp hst2 with hst2 | hst2
          · exact (applyTrace_inv i price hpr sigs st h).1 st2 hst2
          · exact ih _ ((applyTrace_inv i price hpr sigs st h).2) st2 hst2

/-- C5 (amended): throughout every backtest run over positive prices, the
position and the cash balance are never negative, every executed BUY
spent no more than the capital available just before it, and -- provided
every executed BUY bought at least one share, which fails only when the
bar price exceeds 95 percent of capital -- every leading portion of the
trade log holds zero or one more BUY than SELL records. -/
theorem backtest_invariants (initCap : ℚ) (h0 : 0 ≤ initCap) (df : Frame)
    (hp : ∀ q ∈ df.close, 0 < q) (st : BTState)
    (hst : st ∈ btTrace initCap df) :
    0 ≤ st.position ∧ 0 ≤ st.capital ∧
    (∀ t ∈ st.trades, t.ttype = .BUY → ∃ c, t.cost = some c ∧ c ≤ t.capital + c) ∧
    (buysPositive st.trades → balancedLog st.trades) := by
  have hinit : BTInv ⟨initCap, 0, []⟩ := by
    refine ⟨h0, le_refl 0, ?_, ?_⟩
    · intro t ht
      simp at ht
    · intro _
      exact ⟨fun k => by simp [diffZ, countB, countS],
        by simp [diffZ, countB, countS]⟩
  unfold btTrace at hst
  rcases List.mem_cons.mp hst with rfl | hst
  · exact ⟨hinit.2.1, hinit.1, hinit.2.2.1, fun h => (hinit.2.2.2 h).1⟩
  · have h := barsTrace_inv df hp _ _ hinit st hst
    exact ⟨h.2.1, h.1, h.2.2.1, fun hb => (h.2.2.2 hb).1⟩

/-- Close (also high and low) of the expensive-instrument frame: a price
of 100000 against 10000 of starting capital. -/
def closeB20 : List ℚ :=
  [100000, 100000, 100000, 100000, 100000, 100000, 100000, 100000, 100000, 
   100000, 100000, 100000, 100000, 100000, 100000, 100000, 100000, 100000, 
   100000, 100000]

/-- Volume column of the expensive-instrument frame. -/
def volB20 : List ℚ :=
  [10, 10, 10, 10, 10, 10, 10, 10, 10, 10, 10, 10, 10, 10, 10, 10, 10, 10, 
   10, 10]

/-- RSI column of the expensive-instrument frame: last bar oversold. -/
def rsiB20 : List ℚ :=
  [50, 50, 50, 50, 50, 50, 50, 50, 50, 50, 50, 50, 50, 50, 50, 50, 50, 50, 
   50, 20]

/-- Upper Bollinger band of the expensive-instrument frame. -/
def bbHighB20 : List ℚ :=
  [1000000000, 1000000000, 1000000000, 1000000000, 1000000000, 1000000000, 
   1000000000, 1000000000, 1000000000, 1000000000, 1000000000, 1000000000, 
   1000000000, 1000000000, 1000000000, 1000000000, 1000000000, 1000000000, 
   1000000000, 1000000000]

/-- Lower Bollinger band of the expensive-instrument frame, far above the
close. -/
def bbLowB20 : List ℚ :=
  [200000, 200000, 200000, 200000, 200000, 200000, 200000, 200000, 200000, 
   200000, 200000, 200000, 200000, 200000, 200000, 200000, 200000, 200000, 
   200000, 200000]

/-- A 20-bar frame whose last bar triggers both an RSI BUY and a
Bollinger BUY at a price ten times the available capital, so each
executed BUY buys zero shares. -/
def cexBf : Frame :=
  ⟨closeB20, closeB20, closeB20, volB20, some rsiB20, some onesV20,
   some zerosV20, some bbHighB20, some bbLowB20⟩

/-- The RSI BUY signal of cexBf. -/
def rsiSigB : Signal := ⟨.BUY, 100000, "RSI oversold: " ++ fmt2 20, 1 - 20/35⟩

/-- The Bollinger BUY signal of cexBf. -/
def bbSigB : Signal :=
  ⟨.BUY, 100000, "Price near lower Bollinger Band", 1/2⟩

/-- The backtester aggregation on the full cexBf prefix: the two BUY
signals in evaluator order. -/
theorem analyze_cexB :
    Backtester.analyze_signals cexBf = .ok [rsiSigB, bbSigB] := by
  have hr : rsi_strategy cexBf 35 65 = .ok (some rsiSigB) := by
    norm_num [rsi_strategy, rsiSigB, cexBf, rsiB20, closeB20, colE, exGet,
      ilocNeg]
  have hm : macd_cross_strategy cexBf = .ok none := by
    norm_num [macd_cross_strategy, cexBf, onesV20, zerosV20, closeB20,
      colE, exGet, ilocNeg, Frame.len]
  have hb : bollinger_bands_strategy cexBf = .ok (some bbSigB) := by
    norm_num [bollinger_bands_strategy, bbSigB, cexBf, bbHighB20, bbLowB20,
      closeB20, colE, exGet, ilocNeg]
  have hs : swing_trade_strategy cexBf = none := by
    have hfsr : (find_support_resistance cexBf 20 (2/100)).1 = [] := by
      have hidx : pivotIdxs cexBf.len 20 = [] := by
        norm_num [cexBf, Frame.len, closeB20, pivotIdxs, List.range']
      norm_num [find_support_resistance, supIdxs, hidx, cluster_levels,
        List.insertionSort]
    exact swingEmpty cexBf rsiB20 100000 10 20 50
      (by norm_num [cexBf, Frame.len, closeB20])
      (by norm_num [exGet, ilocNeg, cexBf, closeB20])
      (by norm_num [exGet, ilocNeg, cexBf, volB20]) rfl
      (by norm_num [exGet, ilocNeg, rsiB20])
      (by norm_num [exGet, ilocNeg, rsiB20]) hfsr
  unfold Backtester.analyze_signals
  rw [hr, hm, hb, hs]
  simp

/-- A run of consecutive bars whose prefixes are under 20 bars leaves the
ledger untouched. -/
theorem btFold_skip (df : Frame) : ∀ (is : List ℕ) (st : BTState),
    (∀ i ∈ is, (takeBars df (i+1)).len < 20) →
    (is.foldl
      (fun (est : Except Err BTState) i =>
        match est with
        | Except.error e => Except.error e
        | Except.ok s => applyBar df s i)
      (Except.ok st)) = Except.ok st := by
  intro is
  induction is with
  | nil =>
    intro st h
    rfl
  | cons i rest ih =>
    intro st h
    simp only [List.foldl_cons]
    have hskip : applyBar df st i = .ok st := by
      unfold applyBar
      rw [if_pos (h i (List.mem_cons_self i rest))]
    rw [hskip]
    exact ih st fun j hj => h j (List.mem_cons_of_mem i hj)

/-- The zero-share BUY record of the RSI signal of cexBf. -/
def recB1 : Trade :=
  ⟨19, .BUY, 100000, 0, some 0, none, 10000, "RSI oversold: " ++ fmt2 20⟩

/-- The zero-share BUY record of the Bollinger signal of cexBf. -/
def recB2 : Trade :=
  ⟨19, .BUY, 100000, 0, some 0, none, 10000,
   "Price near lower Bollinger Band"⟩

/-- The full replay of cexBf: the single evaluated bar executes two BUY
trades of zero shares each, leaving capital and position unchanged. -/
theorem btFold_cexB : btFold 10000 cexBf = .ok ⟨10000, 0, [recB1, recB2]⟩ := by
  have hlen : cexBf.len = 20 := by norm_num [cexBf, Frame.len, closeB20]
  have hclen : cexBf.close.length = 20 := hlen
  unfold btFold
  rw [hlen, List.range_succ, List.foldl_append]
  rw [btFold_skip cexBf (List.range 19) ⟨10000, 0, []⟩ ?hskip]
  case hskip =>
    intro i hi
    rw [List.mem_range] at hi
    have ht : (takeBars cexBf (i+1)).len = min (i+1) 20 := by
      simp [takeBars, Frame.len, List.length_take, hclen]
    omega
  simp only [List.foldl_cons, List.foldl_nil]
  have hpre : takeBars cexBf (19+1) = cexBf := by
    norm_num [takeBars, cexBf, closeB20, volB20, rsiB20, onesV20, zerosV20,
      bbHighB20, bbLowB20]
  unfold applyBar
  rw [hpre, if_neg (by rw [hlen]; norm_num), analyze_cexB]
  have hil : ilocNeg cexBf.close 1 = some 100000 := by
    norm_num [ilocNeg, cexBf, closeB20]
  rw [hil]
  have hpy : pyInt ((19:ℚ)/200) = 0 := by
    unfold pyInt
    rw [if_pos (by norm_num)]
    norm_num [Int.floor_eq_iff]
  norm_num [applySignal, rsiSigB, bbSigB, hpy, recB1, recB2]

/-- The trade log produced by the cexBf replay (empty if the replay were
to abort). -/
def cexBTrades : List Trade :=
  match btFold 10000 cexBf with
  | .ok st => st.trades
  | .error _ => []

/-- C5 counterexample: the cexBf replay executes two consecutive BUY
trades with no intervening SELL -- each buys zero shares and leaves the
position at zero -- so the log has a leading portion with two more BUY
than SELL records, against the claimed 0-or-1 bound. -/
theorem backtest_prefix_cex :
    diffZ (cexBTrades.take 2) = 2 ∧ cexBTrades.length = 2 := by
  have h : cexBTrades = [recB1, recB2] := by
    norm_num [cexBTrades, btFold_cexB]
  rw [h]
  constructor
  · rw [show ([recB1, recB2] : List Trade).take 2 = [recB1] ++ [recB2] from
      rfl]
    rw [diffZ_append, diffZ_single_buy recB1 rfl, diffZ_single_buy recB2 rfl]
    norm_num
  · rfl

/-- Witness for C5: the initial state of the cexBf replay trace satisfies
all the invariants. -/
theorem backtest_invariants_witness :
    0 ≤ (⟨10000, 0, []⟩ : BTState).position ∧
    0 ≤ (⟨10000, 0, []⟩ : BTState).capital ∧
    (∀ t ∈ (⟨10000, 0, []⟩ : BTState).trades, t.ttype = .BUY →
      ∃ c, t.cost = some c ∧ c ≤ t.capital + c) ∧
    (buysPositive (⟨10000, 0, []⟩ : BTState).trades →
      balancedLog (⟨10000, 0, []⟩ : BTState).trades) := by
  have hp : ∀ q ∈ cexBf.close, 0 < q := by
    intro q hq
    norm_num [cexBf, closeB20] at hq
    rw [hq]
    norm_num
  exact backtest_invariants 10000 (by norm_num) cexBf hp ⟨10000, 0, []⟩
    (List.mem_cons_self _ _)

/-- The profitable-pair loop agrees with the pair count of the
specification on well-paired logs. -/
theorem pairProfits_eq : ∀ (l : List Trade), pairsWellFormed l →
    pairProfits l = some (profitablePairsSpec l)
  | [] => fun _ => rfl
  | [_] => fun _ => rfl
  | b :: s :: rest => fun h => by
    obtain ⟨h1, hc, h2, hr, hrest⟩ := h
    have ih := pairProfits_eq rest hrest
    obtain ⟨c, hce⟩ := Option.isSome_iff_exists.mp hc
    obtain ⟨r, hre⟩ := Option.isSome_iff_exists.mp hr
    unfold pairProfits profitablePairsSpec
    rw [hce, hre, ih]
    simp [hce, hre, Nat.add_comm]

/-- C6 (amended): whenever the trade log pairs up as BUY with cost then
SELL with revenue (with at most one dangling record) and the initial
capital is nonzero, calculate_metrics succeeds and returns exactly the
claimed formulas: paired trade count, profitable-pair count, and the
return computed from the final capital marking any held position to the
last trade price; an empty log yields all metrics zero. -/
theorem calculate_metrics_spec (initCap : ℚ) (st : BTState)
    (hcap : initCap ≠ 0) (hpair : pairsWellFormed st.trades) :
    (st.trades = [] → calculateMetrics initCap st = some ⟨0, 0, 0, 0, []⟩) ∧
    (∀ lt, st.trades.getLast? = some lt →
      calculateMetrics initCap st = some ⟨st.trades.length / 2,
        profitablePairsSpec st.trades,
        (st.capital + (if 0 < st.position then (st.position : ℚ) * lt.price
          else 0)) - initCap,
        ((st.capital + (if 0 < st.position then (st.position : ℚ) * lt.price
          else 0)) - initCap) / initCap * 100,
        st.trades⟩) := by
  constructor
  · intro h
    unfold calculateMetrics
    rw [h]
  · intro lt hlt
    obtain ⟨cap, pos, trades⟩ := st
    simp only at hpair hlt ⊢
    cases hl : trades with
    | nil =>
      rw [hl] at hlt
      simp at hlt
    | cons t0 rest =>
      subst hl
      simp only [calculateMetrics]
      rw [pairProfits_eq _ hpair]
      have hlast : (t0 :: rest).getLast (List.cons_ne_nil t0 rest) = lt := by
        rw [List.getLast_eq_iff_getLast?_eq_some]
        exact hlt
      rw [hlast]
      simp [hcap]

/-- C6 counterexample: the cexBf replay ends with a nonempty trade log of
two BUY records, and calculate_metrics then produces no metrics at all --
the pair loop reads the revenue key of the second record, a BUY, and the
resulting KeyError turns the whole backtest result into None. -/
theorem metrics_keyerror_cex :
    run_backtest 10000 cexBf = none ∧ cexBTrades ≠ [] := by
  constructor
  · unfold run_backtest
    rw [btFold_cexB]
    show calculateMetrics 10000 ⟨10000, 0, [recB1, recB2]⟩ = none
    simp only [calculateMetrics]
    have hpp : pairProfits [recB1, recB2] = none := by
      simp [pairProfits, recB1, recB2]
    rw [hpp]
  · rw [show cexBTrades = [recB1, recB2] from by
      norm_num [cexBTrades, btFold_cexB]]
    simp

/-- A well-paired ledger: one BUY of one share at 100 and one SELL of it
at 150, on starting capital 10000. -/
def wst6 : BTState :=
  ⟨10050, 0, [⟨0, .BUY, 100, 1, some 100, none, 9900, "r1"⟩,
    ⟨1, .SELL, 150, 1, none, some 150, 10050, "r2"⟩]⟩

/-- Witness for C6: the well-paired two-trade ledger yields one paired
trade, one profitable pair, a 50 return and 0.5 percent. -/
theorem calculate_metrics_spec_witness :
    calculateMetrics 10000 wst6 = some ⟨1, 1, 50, 1/2, wst6.trades⟩ := by
  have h := (calculate_metrics_spec 10000 wst6 (by norm_num)
      (by norm_num [wst6, pairsWellFormed])).2
    ⟨1, .SELL, 150, 1, none, some 150, 10050, "r2"⟩
    (by norm_num [wst6])
  rw [h]
  norm_num [wst6, profitablePairsSpec]
